import Mathlib

/-!
# srsue::usim  (srsue/src/stack/upper/usim.cc)

A shallow embedding of the soft-USIM authentication code and the properties
proved about it.

Conventions of the embedding

* A C byte buffer (`uint8_t[]` / `uint8_t*`) is a `List Nat`; every element is
  the value of one `uint8_t`.  The only arithmetic the code does on bytes is
  `^`, which cannot leave the byte range, so no reduction modulo 256 appears.
* `rd b i` is the C expression `b[i]`, `wr b i v` the assignment `b[i] = v`.
* A `for (i = 0; i < n; i++) body` loop is `forLoop n body`.
* The member variables of `class usim` are the fields of the structure `usim`;
  member functions take the object and return the updated object.
* The cryptographic routines of `srsran/common/security.h`, `ssl.h` and
  `sha256.h` are external: they are the fields of `Primitives`, and every
  definition and theorem is parametric in them.
* A `std::string` is a `String`; a character stands for one `char`.
* Logging calls have no effect on the state and are left out, except for the
  error reports of `init`, which are recorded in its result.
-/

namespace srsue

/-- A byte buffer. -/
abbrev Bytes := List Nat

/-- The C read `b[i]`. -/
def rd (b : Bytes) (i : Nat) : Nat := b.getD i 0

/-- The C write `b[i] = v`. -/
def wr (b : Bytes) (i : Nat) (v : Nat) : Bytes := b.set i v

/-- The loop `for (i = 0; i < n; i++) s = body i s`. -/
def forLoop {σ : Type} : Nat → (Nat → σ → σ) → σ → σ
  | 0, _, s => s
  | n + 1, body, s => body n (forLoop n body s)

/-- `n` zero bytes: the value-initialised `std::vector<uint8_t> out(32)`, and the
stand-in for a local array all of whose bytes are written before they are
read. -/
def zeros (n : Nat) : Bytes := List.replicate n 0

/-- The call `memcpy(dst + off, src, n)`. -/
def memcpy (dst : Bytes) (off : Nat) (src : Bytes) (n : Nat) : Bytes :=
  forLoop n (fun i d => wr d (off + i) (rd src i)) dst

/-- The `len` bytes a callee reads through a pointer `p` passed with a length. -/
def view (p : Bytes) (len : Nat) : Bytes := p.take len

/-- A callee that writes its `n`-byte result `out` through the pointer `dst`. -/
def store (dst out : Bytes) (n : Nat) : Bytes := memcpy dst 0 out n

/-- Modelled from the spec: the enumeration `auth_result_t` is declared in a
header that is not among the sources; the spec gives the outcomes OK and FAILED,
the two values usim.cc uses. -/
inductive auth_result_t
  | AUTH_OK
  | AUTH_FAILED
  deriving DecidableEq, Repr

/-- Modelled from the spec: the algorithm family tag (declared in usim_base.h,
not among the sources); usim.cc uses the two values below. -/
inductive auth_algo_t
  | auth_algo_milenage
  | auth_algo_xor
  deriving DecidableEq, Repr

open auth_result_t auth_algo_t

/-- Modelled from the spec: the buffer length macros of the missing headers
(CK 16 bytes, IK 16 bytes, AK 6 bytes, alternate AK 8 bytes). -/
def CK_LEN : Nat := 16

/-- Modelled from the spec: length of the integrity key. -/
def IK_LEN : Nat := 16

/-- Modelled from the spec: length of the anonymity key. -/
def AK_LEN : Nat := 6

/-- Modelled from the spec: length of the alternate anonymity key. -/
def AK_LEN_NEW : Nat := 8

/-- The four outputs of an f2345 transform. -/
structure F2345 where
  res : Bytes
  ck : Bytes
  ik : Bytes
  ak : Bytes
  deriving DecidableEq, Repr

/-- The external routines called by usim.cc.  Each field is the function
computed by the routine of the same name: the arguments are the bytes read
through the input pointers, the value is the bytes written through the output
pointer(s).  A pointer passed with a length is passed as the bytes it denotes. -/
structure Primitives where
  /-- `security_milenage_f2345(k, opc, rand, res, ck, ik, ak)` -/
  security_milenage_f2345 : Bytes → Bytes → Bytes → F2345
  /-- `security_milenage_f1(k, opc, rand, sqn, amf, mac)` -/
  security_milenage_f1 : Bytes → Bytes → Bytes → Bytes → Bytes → Bytes
  /-- `security_xor_f2345(k, rand, res, ck, ik, ak)` -/
  security_xor_f2345 : Bytes → Bytes → F2345
  /-- `security_xor_f1(k, rand, sqn, amf, mac)` -/
  security_xor_f1 : Bytes → Bytes → Bytes → Bytes → Bytes
  /-- `security_milenage_f2345_new(k, opc, rand, res, ck, ik, ak_new)` -/
  security_milenage_f2345_new : Bytes → Bytes → Bytes → F2345
  /-- `security_milenage_f1_new(k, opc, rand, mac)` -/
  security_milenage_f1_new : Bytes → Bytes → Bytes → Bytes
  /-- `security_milenage_f1_star_new(k, opc, rand, ak_new)` -/
  security_milenage_f1_star_new : Bytes → Bytes → Bytes → Bytes
  /-- `sha256_hash(out, input, len)` -/
  sha256_hash : Bytes → Bytes
  /-- `security_generate_k_asme(ck, ik, ak_xor_sqn, mcc, mnc, k_asme)` -/
  security_generate_k_asme : Bytes → Bytes → Bytes → Nat → Nat → Bytes
  /-- `security_generate_res_star(ck, ik, serving_network_name, rand, res, res_len, res_star)` -/
  security_generate_res_star : Bytes → Bytes → String → Bytes → Bytes → Nat → Bytes
  /-- `security_generate_k_ausf(ck, ik, ak_xor_sqn, serving_network_name, k_ausf)` -/
  security_generate_k_ausf : Bytes → Bytes → Bytes → String → Bytes
  /-- `security_generate_k_seaf(k_ausf, serving_network_name, k_seaf)` -/
  security_generate_k_seaf : Bytes → String → Bytes
  /-- `security_generate_k_amf(k_seaf, imsi_str, abba, abba_len, k_amf)` -/
  security_generate_k_amf : Bytes → String → Bytes → Nat → Bytes

/-- The output sizes of the external routines: RES 8 bytes (16 for the XOR
family, which writes its whole XDOUT), CK and IK 16, AK 6, alternate AK 8,
MAC 8, digest 32, RES* 16, derived keys 32. -/
def Primitives.WF (P : Primitives) : Prop :=
  (∀ k opc rand, (P.security_milenage_f2345 k opc rand).res.length = 8 ∧
      (P.security_milenage_f2345 k opc rand).ck.length = 16 ∧
      (P.security_milenage_f2345 k opc rand).ik.length = 16 ∧
      (P.security_milenage_f2345 k opc rand).ak.length = 6) ∧
  (∀ k opc rand sqn amf, (P.security_milenage_f1 k opc rand sqn amf).length = 8) ∧
  (∀ k rand, (P.security_xor_f2345 k rand).res.length = 16 ∧
      (P.security_xor_f2345 k rand).ck.length = 16 ∧
      (P.security_xor_f2345 k rand).ik.length = 16 ∧
      (P.security_xor_f2345 k rand).ak.length = 6) ∧
  (∀ k rand sqn amf, (P.security_xor_f1 k rand sqn amf).length = 8) ∧
  (∀ k opc rand, (P.security_milenage_f2345_new k opc rand).res.length = 8 ∧
      (P.security_milenage_f2345_new k opc rand).ck.length = 16 ∧
      (P.security_milenage_f2345_new k opc rand).ik.length = 16 ∧
      (P.security_milenage_f2345_new k opc rand).ak.length = 8) ∧
  (∀ k opc rand, (P.security_milenage_f1_new k opc rand).length = 8) ∧
  (∀ k opc rand, (P.security_milenage_f1_star_new k opc rand).length = 8) ∧
  (∀ input, (P.sha256_hash input).length = 32) ∧
  (∀ ck ik a mcc mnc, (P.security_generate_k_asme ck ik a mcc mnc).length = 32) ∧
  (∀ ck ik snn rand res len, (P.security_generate_res_star ck ik snn rand res len).length = 16) ∧
  (∀ ck ik a snn, (P.security_generate_k_ausf ck ik a snn).length = 32) ∧
  (∀ kausf snn, (P.security_generate_k_seaf kausf snn).length = 32) ∧
  (∀ kseaf imsi abba len, (P.security_generate_k_amf kseaf imsi abba len).length = 32)

/-- The external routines in the order of the call statements that run;
recorded so that "no routine was invoked" can be stated. -/
inductive Call
  | security_milenage_f2345
  | security_milenage_f1
  | security_xor_f2345
  | security_xor_f1
  | security_milenage_f2345_new
  | security_milenage_f1_new
  | security_milenage_f1_star_new
  | sha256_hash
  | security_generate_k_asme
  | security_generate_res_star
  | security_generate_k_ausf
  | security_generate_k_seaf
  | security_generate_k_amf
  deriving DecidableEq, Repr

/-- The key-derivation routines (`security_generate_*`). -/
def Call.isKeyDerivation : Call → Bool
  | .security_generate_k_asme => true
  | .security_generate_res_star => true
  | .security_generate_k_ausf => true
  | .security_generate_k_seaf => true
  | .security_generate_k_amf => true
  | _ => false

/-- Modelled from the spec: the member variables of `class usim` (declared in
usim.h, not among the sources).  The fields are the members usim.cc reads or
writes; `n` is the static member defined at usim.cc:36. -/
structure usim where
  initiated : Bool
  auth_algo : auth_algo_t
  imsi_str : String
  imei_str : String
  imsi : Nat
  imei : Nat
  k : Bytes
  op : Bytes
  opc : Bytes
  ck : Bytes
  ik : Bytes
  ak : Bytes
  ak_new : Bytes
  amf : Bytes
  mac : Bytes
  autn : Bytes
  autn_new : Bytes
  xsnmac : Bytes
  n : Bytes
  deriving DecidableEq, Repr

/-- Modelled from the spec: the array sizes of the members (usim.h is not among
the sources): secret and operator constant 16 bytes, CK and IK 16, AK 6,
alternate AK 8, AMF 2, MAC 8, token 16, short token 8, serving-network MAC 8,
context value 16. -/
def usim.WF (s : usim) : Prop :=
  s.k.length = 16 ∧ s.op.length = 16 ∧ s.opc.length = 16 ∧
  s.ck.length = CK_LEN ∧ s.ik.length = IK_LEN ∧ s.ak.length = AK_LEN ∧
  s.ak_new.length = AK_LEN_NEW ∧ s.amf.length = 2 ∧ s.mac.length = 8 ∧
  s.autn.length = 16 ∧ s.autn_new.length = 8 ∧ s.xsnmac.length = 8 ∧
  s.n.length = 16

instance (s : usim) : Decidable s.WF := by
  unfold usim.WF; infer_instance

/-- What `gen_auth_res_milenage` and `gen_auth_res_xor` hand back: the return
value, the caller buffers `res` and `ak_xor_sqn`, `*res_len`, and the external
routines called. -/
structure GenAuthRes where
  result : auth_result_t
  res : Bytes
  res_len : Nat
  ak_xor_sqn : Bytes
  calls : List Call
  deriving DecidableEq, Repr

/-- usim.cc:239-298.  The member variables written (ck, ik, ak, amf, mac, autn)
are carried as locals and put back into the object at the end. -/
def gen_auth_res_milenage (P : Primitives) (s : usim)
    (rand autn_enb res ak_xor_sqn : Bytes) : usim × GenAuthRes :=
  -- Use RAND and K to compute RES, CK, IK and AK
  let o := P.security_milenage_f2345 s.k s.opc rand
  let res := store res o.res 8
  let ck := store s.ck o.ck CK_LEN
  let ik := store s.ik o.ik IK_LEN
  let ak := store s.ak o.ak AK_LEN
  let res_len := 8
  -- Extract sqn from autn
  let sqn := forLoop 6 (fun i sqn => wr sqn i (rd autn_enb i ^^^ rd ak i)) (zeros 6)
  -- Extract AMF from autn
  let amf := forLoop 2 (fun i amf => wr amf i (rd autn_enb (6 + i))) s.amf
  -- Generate MAC
  let mac := store s.mac (P.security_milenage_f1 s.k s.opc rand sqn amf) 8
  -- Construct AUTN
  let autn := forLoop 6 (fun i autn => wr autn i (rd sqn i ^^^ rd ak i)) s.autn
  let autn := forLoop 2 (fun i autn => wr autn (6 + i) (rd amf i)) autn
  let autn := forLoop 8 (fun i autn => wr autn (8 + i) (rd mac i)) autn
  -- Compare AUTNs
  let result := forLoop 16
    (fun i result => if rd autn i ≠ rd autn_enb i then AUTH_FAILED else result) AUTH_OK
  let ak_xor_sqn := forLoop 6 (fun i a => wr a i (rd sqn i ^^^ rd ak i)) ak_xor_sqn
  ({ s with ck := ck, ik := ik, ak := ak, amf := amf, mac := mac, autn := autn },
   { result := result, res := res, res_len := res_len, ak_xor_sqn := ak_xor_sqn,
     calls := [Call.security_milenage_f2345, Call.security_milenage_f1] })

/-- usim.cc:400-459.  The member variables written (ck, ik, ak, amf, mac, autn)
are carried as locals and put back into the object at the end. -/
def gen_auth_res_xor (P : Primitives) (s : usim)
    (rand autn_enb res ak_xor_sqn : Bytes) : usim × GenAuthRes :=
  -- Use RAND and K to compute RES, CK, IK and AK
  let o := P.security_xor_f2345 s.k rand
  let res_ := store (zeros 16) o.res 16
  let ck := store s.ck o.ck CK_LEN
  let ik := store s.ik o.ik IK_LEN
  let ak := store s.ak o.ak AK_LEN
  let res := forLoop 8 (fun i res => wr res i (rd res_ i)) res
  let res_len := 8
  -- Extract sqn from autn
  let sqn := forLoop 6 (fun i sqn => wr sqn i (rd autn_enb i ^^^ rd ak i)) (zeros 6)
  -- Extract AMF from autn
  let amf := forLoop 2 (fun i amf => wr amf i (rd autn_enb (6 + i))) s.amf
  -- Generate MAC
  let mac := store s.mac (P.security_xor_f1 s.k rand sqn amf) 8
  -- Construct AUTN
  let autn := forLoop 6 (fun i autn => wr autn i (rd sqn i ^^^ rd ak i)) s.autn
  let autn := forLoop 2 (fun i autn => wr autn (6 + i) (rd amf i)) autn
  let autn := forLoop 8 (fun i autn => wr autn (8 + i) (rd mac i)) autn
  -- Compare AUTNs
  let result := forLoop 16
    (fun i result => if rd autn i ≠ rd autn_enb i then AUTH_FAILED else result) AUTH_OK
  let ak_xor_sqn := forLoop 6 (fun i a => wr a i (rd sqn i ^^^ rd ak i)) ak_xor_sqn
  ({ s with ck := ck, ik := ik, ak := ak, amf := amf, mac := mac, autn := autn },
   { result := result, res := res, res_len := res_len, ak_xor_sqn := ak_xor_sqn,
     calls := [Call.security_xor_f2345, Call.security_xor_f1] })

/-- The local array `snName` of usim.cc:349-354. -/
def snName : Bytes :=
  [0x35, 0x47, 0x3a, 0x6d, 0x6e, 0x63, 0x30, 0x39,
   0x33, 0x2e, 0x6d, 0x63, 0x63, 0x32, 0x30, 0x38,
   0x2e, 0x33, 0x67, 0x70, 0x70, 0x6e, 0x65, 0x74,
   0x77, 0x6f, 0x72, 0x6b, 0x2e, 0x6f, 0x72, 0x67]

/-- What `gen_auth_res_milenage_new` hands back: the return value, the caller
buffer `res`, `*res_len`, the external routines called, and the final contents
of the locals `input` (the hash input) and `out` (the vector the digest is
written to). -/
structure GenAuthResNew where
  result : auth_result_t
  res : Bytes
  res_len : Nat
  input : Bytes
  out : Bytes
  calls : List Call
  deriving DecidableEq, Repr

/-- usim.cc:301-396.  The local array `output` (usim.cc:359) is declared without
an initialiser and never written; `output` below is whatever it holds.  The
member variables written (ck, ik, ak_new, mac, autn_new, xsnmac) are carried as
locals and put back into the object at the end. -/
def gen_auth_res_milenage_new (P : Primitives) (s : usim)
    (rand autn_enb snmac res : Bytes) (serving_network_name : String)
    (output : Bytes) : usim × GenAuthResNew :=
  let _ := serving_network_name
  -- Use RAND and K to compute RES, CK, IK and AK
  let o := P.security_milenage_f2345_new s.k s.opc rand
  let res := store res o.res 8
  let ck := store s.ck o.ck CK_LEN
  let ik := store s.ik o.ik IK_LEN
  let ak_new := store s.ak_new o.ak AK_LEN_NEW
  let res_len := 8
  -- Generate MAC
  let mac := store s.mac (P.security_milenage_f1_new s.k s.opc rand) 8
  let ak_new := store ak_new (P.security_milenage_f1_star_new s.k s.opc rand) AK_LEN_NEW
  -- Construct AUTN
  let autn_new := forLoop 8 (fun i a => wr a i (rd mac i ^^^ rd ak_new i)) s.autn_new
  -- Compare AUTNs
  let result := forLoop 8
    (fun i result => if rd autn_new i ≠ rd autn_enb i then AUTH_FAILED else result) AUTH_OK
  let out := zeros 32
  let total_len := 16 + 8 + 32
  let input := zeros total_len
  let offset := 0
  let input := memcpy input offset s.n 16
  let offset := offset + 16
  let input := memcpy input offset mac 8
  let offset := offset + 8
  let input := memcpy input offset snName 32
  let out := store out (P.sha256_hash (view input total_len)) 32
  let xsnmac := forLoop 8 (fun i xsnmac => wr xsnmac i (rd output (i + 24))) s.xsnmac
  let result := forLoop 8
    (fun i result => if rd xsnmac i ≠ rd snmac i then AUTH_FAILED else result) result
  ({ s with ck := ck, ik := ik, ak_new := ak_new, mac := mac, autn_new := autn_new,
            xsnmac := xsnmac },
   { result := result, res := res, res_len := res_len, input := input, out := out,
     calls := [Call.security_milenage_f2345_new, Call.security_milenage_f1_new,
               Call.security_milenage_f1_star_new, Call.sha256_hash] })

/-- What `generate_authentication_response` hands back: the return value, the
caller buffers `res` and `k_asme_`, `*res_len`, and the external routines
called. -/
structure Auth4G where
  result : auth_result_t
  res : Bytes
  res_len : Nat
  k_asme : Bytes
  calls : List Call
  deriving DecidableEq, Repr

/-- usim.cc:112-134.  The local `ak_xor_sqn` is declared without initialiser;
the verifier writes all 6 bytes before they are read. -/
def generate_authentication_response (P : Primitives) (s : usim)
    (rand autn_enb : Bytes) (mcc mnc : Nat) (res k_asme_ : Bytes) : usim × Auth4G :=
  let ak_xor_sqn := zeros 6
  let r := if auth_algo_xor = s.auth_algo
    then gen_auth_res_xor P s rand autn_enb res ak_xor_sqn
    else gen_auth_res_milenage P s rand autn_enb res ak_xor_sqn
  let s := r.1
  let auth_result := r.2.result
  let ak_xor_sqn := r.2.ak_xor_sqn
  if auth_result = AUTH_OK then
    -- Generate K_asme
    let k_asme_ := store k_asme_
      (P.security_generate_k_asme s.ck s.ik ak_xor_sqn mcc mnc) 32
    (s, { result := auth_result, res := r.2.res, res_len := r.2.res_len, k_asme := k_asme_,
          calls := r.2.calls ++ [Call.security_generate_k_asme] })
  else
    (s, { result := auth_result, res := r.2.res, res_len := r.2.res_len, k_asme := k_asme_,
          calls := r.2.calls })

/-- What the two 5G entry points hand back: the return value, the caller
buffers `res_star` and `k_amf`, the external routines called, and the final
contents of the locals `k_ausf` and `k_seaf`. -/
structure Auth5G where
  result : auth_result_t
  res_star : Bytes
  k_amf : Bytes
  k_ausf : Bytes
  k_seaf : Bytes
  calls : List Call
  deriving DecidableEq, Repr

/-- usim.cc:137-179.  The locals `ak_xor_sqn`, `res`, `k_ausf` and `k_seaf` are
declared without initialiser; each byte read has been written before. -/
def generate_authentication_response_5g (P : Primitives) (s : usim)
    (rand autn_enb : Bytes) (serving_network_name : String)
    (abba : Bytes) (abba_len : Nat) (res_star k_amf : Bytes) : usim × Auth5G :=
  let ak_xor_sqn := zeros 6
  let res := zeros 16
  let k_ausf := zeros 32
  let k_seaf := zeros 32
  let r := if auth_algo_xor = s.auth_algo
    then gen_auth_res_xor P s rand autn_enb res ak_xor_sqn
    else gen_auth_res_milenage P s rand autn_enb res ak_xor_sqn
  let s := r.1
  let auth_result := r.2.result
  let res := r.2.res
  let res_len := r.2.res_len
  let ak_xor_sqn := r.2.ak_xor_sqn
  if auth_result = AUTH_OK then
    -- Generate RES STAR
    let res_star := store res_star
      (P.security_generate_res_star s.ck s.ik serving_network_name rand
        (view res res_len) res_len) 16
    -- Generate K_ausf
    let k_ausf := store k_ausf
      (P.security_generate_k_ausf s.ck s.ik ak_xor_sqn serving_network_name) 32
    -- Generate K_seaf
    let k_seaf := store k_seaf (P.security_generate_k_seaf k_ausf serving_network_name) 32
    let k_amf := store k_amf
      (P.security_generate_k_amf k_seaf s.imsi_str (view abba abba_len) abba_len) 32
    (s, { result := auth_result, res_star := res_star, k_amf := k_amf,
          k_ausf := k_ausf, k_seaf := k_seaf,
          calls := r.2.calls ++ [Call.security_generate_res_star, Call.security_generate_k_ausf,
                                 Call.security_generate_k_seaf, Call.security_generate_k_amf] })
  else
    (s, { result := auth_result, res_star := res_star, k_amf := k_amf,
          k_ausf := k_ausf, k_seaf := k_seaf, calls := r.2.calls })

/-- usim.cc:182-232.  `output` is the content of the uninitialised local of
`gen_auth_res_milenage_new`.  The locals `res` and `res_len` are declared
without initialiser; they are read only after `gen_auth_res_milenage_new` has
written them. -/
def generate_authentication_response_5g_new (P : Primitives) (s : usim)
    (rand autn_enb snmac : Bytes) (serving_network_name : String)
    (abba : Bytes) (abba_len : Nat) (res_star k_amf : Bytes)
    (output : Bytes) : usim × Auth5G :=
  let res := zeros 16
  let k_ausf := zeros 32
  let k_seaf := zeros 32
  let res_len := 0
  let r : usim × auth_result_t × Bytes × Nat × List Call :=
    if auth_algo_xor = s.auth_algo then
      (s, AUTH_FAILED, res, res_len, [])
    else
      let g := gen_auth_res_milenage_new P s rand autn_enb snmac res serving_network_name output
      (g.1, g.2.result, g.2.res, g.2.res_len, g.2.calls)
  let s := r.1
  let auth_result := r.2.1
  let res := r.2.2.1
  let res_len := r.2.2.2.1
  let calls := r.2.2.2.2
  if auth_result = AUTH_OK then
    -- Generate RES STAR
    let res_star := store res_star
      (P.security_generate_res_star s.ck s.ik serving_network_name rand
        (view res res_len) res_len) 16
    -- Generate K_ausf
    let temp := memcpy (zeros 6) 0 autn_enb 6
    let k_ausf := store k_ausf
      (P.security_generate_k_ausf s.ck s.ik temp serving_network_name) 32
    -- Generate K_seaf
    let k_seaf := store k_seaf (P.security_generate_k_seaf k_ausf serving_network_name) 32
    let k_amf := store k_amf
      (P.security_generate_k_amf k_seaf s.imsi_str (view abba abba_len) abba_len) 32
    (s, { result := auth_result, res_star := res_star, k_amf := k_amf,
          k_ausf := k_ausf, k_seaf := k_seaf,
          calls := calls ++ [Call.security_generate_res_star, Call.security_generate_k_ausf,
                             Call.security_generate_k_seaf, Call.security_generate_k_amf] })
  else
    (s, { result := auth_result, res_star := res_star, k_amf := k_amf,
          k_ausf := k_ausf, k_seaf := k_seaf, calls := calls })

/-- The `n` bytes `a[i] ^ b[i]`, `i < n`. -/
def xorBytes (a b : Bytes) (n : Nat) : Bytes := (List.range n).map (fun i => rd a i ^^^ rd b i)

/-- The `n` bytes `b[lo .. lo + n)`. -/
def slice (b : Bytes) (lo n : Nat) : Bytes := (List.range n).map (fun i => rd b (lo + i))

/-- The verifier of the specification (4.1, note to step 5), standard family:
recompute the MAC by f1 over (secret, rand, sqn, amf), with
sqn = token[0..6) XOR AK and amf = token[6..8), and compare it with token
bytes [8,16) only. -/
def direct_mac_check_milenage (P : Primitives) (k opc rand autn_enb : Bytes) : auth_result_t :=
  let AK := (P.security_milenage_f2345 k opc rand).ak
  let sqn := xorBytes autn_enb AK 6
  let amf := slice autn_enb 6 2
  let MAC := P.security_milenage_f1 k opc rand sqn amf
  if slice MAC 0 8 = slice autn_enb 8 8 then AUTH_OK else AUTH_FAILED

/-- The verifier of the specification (4.1, note to step 5), XOR test family. -/
def direct_mac_check_xor (P : Primitives) (k rand autn_enb : Bytes) : auth_result_t :=
  let AK := (P.security_xor_f2345 k rand).ak
  let sqn := xorBytes autn_enb AK 6
  let amf := slice autn_enb 6 2
  let MAC := P.security_xor_f1 k rand sqn amf
  if slice MAC 0 8 = slice autn_enb 8 8 then AUTH_OK else AUTH_FAILED

/-- A concrete instance of the external routines with the right output sizes,
on which the definitions can be evaluated.  It is test data in the style of the
XOR test algorithm (every value is derived from `k ^ rand`); nothing is claimed
about the real Milenage, SHA-256 or key-derivation functions. -/
def samplePrimitives : Primitives where
  security_milenage_f2345 := fun k opc rand =>
    let xd := xorBytes (xorBytes k rand 16) opc 16
    { res := slice xd 0 8,
      ck := (List.range 16).map (fun i => rd xd ((i + 1) % 16)),
      ik := (List.range 16).map (fun i => rd xd ((i + 2) % 16)),
      ak := slice xd 3 6 }
  security_milenage_f1 := fun k opc rand sqn amf =>
    xorBytes (xorBytes (xorBytes k rand 16) opc 16) (sqn ++ amf) 8
  security_xor_f2345 := fun k rand =>
    let xd := xorBytes k rand 16
    { res := xd,
      ck := (List.range 16).map (fun i => rd xd ((i + 1) % 16)),
      ik := (List.range 16).map (fun i => rd xd ((i + 2) % 16)),
      ak := slice xd 3 6 }
  security_xor_f1 := fun k rand sqn amf => xorBytes (xorBytes k rand 16) (sqn ++ amf) 8
  security_milenage_f2345_new := fun k opc rand =>
    let xd := xorBytes (xorBytes k rand 16) opc 16
    { res := slice xd 0 8,
      ck := (List.range 16).map (fun i => rd xd ((i + 1) % 16)),
      ik := (List.range 16).map (fun i => rd xd ((i + 2) % 16)),
      ak := slice xd 3 8 }
  security_milenage_f1_new := fun k opc rand => slice (xorBytes (xorBytes k rand 16) opc 16) 8 8
  security_milenage_f1_star_new := fun k opc rand =>
    slice (xorBytes (xorBytes k rand 16) opc 16) 2 8
  sha256_hash := fun input =>
    (List.range 32).map (fun i => (rd input i + 3 * rd input (i + 24) + i + 1) % 256)
  security_generate_k_asme := fun ck ik a mcc mnc =>
    (List.range 32).map (fun i => (rd ck (i % 16) + rd ik (i % 16) + rd a (i % 6) + mcc + mnc) % 256)
  security_generate_res_star := fun ck ik snn rand res len =>
    (List.range 16).map
      (fun i => (rd ck i + rd ik i + rd rand i + rd res (i % 8) + snn.length + len) % 256)
  security_generate_k_ausf := fun ck ik a snn =>
    (List.range 32).map
      (fun i => (rd ck (i % 16) + 2 * rd ik (i % 16) + rd a (i % 6) + snn.length) % 256)
  security_generate_k_seaf := fun kausf snn =>
    (List.range 32).map (fun i => (rd kausf i + snn.length + 1) % 256)
  security_generate_k_amf := fun kseaf imsi abba len =>
    (List.range 32).map (fun i => (rd kseaf i + imsi.length + rd abba (i % 2) + len) % 256)

/-- A provisioned module (standard family) used to evaluate the definitions. -/
def sampleUsim : usim where
  initiated := true
  auth_algo := auth_algo_milenage
  imsi_str := "001010123456789"
  imei_str := "353490069873319"
  imsi := 1010123456789
  imei := 353490069873319
  k := [0x00, 0x11, 0x22, 0x33, 0x44, 0x55, 0x66, 0x77,
        0x88, 0x99, 0xaa, 0xbb, 0xcc, 0xdd, 0xee, 0xff]
  op := zeros 16
  opc := [0x63, 0xbf, 0xa5, 0x0e, 0xe6, 0x52, 0x33, 0x65,
          0xff, 0x14, 0xc1, 0xf4, 0x5f, 0x88, 0x73, 0x7d]
  ck := zeros 16
  ik := zeros 16
  ak := zeros 6
  ak_new := zeros 8
  amf := zeros 2
  mac := zeros 8
  autn := zeros 16
  autn_new := zeros 8
  xsnmac := zeros 8
  n := zeros 16

/-- The same module provisioned with the XOR test family. -/
def sampleUsimXor : usim := { sampleUsim with auth_algo := auth_algo_xor }

/-- A challenge used to evaluate the definitions. -/
def sampleRand : Bytes :=
  [0x23, 0x55, 0x3c, 0xbe, 0x96, 0x37, 0xa8, 0x9d,
   0x21, 0x8a, 0xe6, 0x4d, 0xae, 0x47, 0xbf, 0x35]

/-- The network token that `samplePrimitives` (standard family) yields for
`sampleUsim`, `sampleRand`, sqn = 00 00 00 00 00 21 and amf = 80 00. -/
def sampleAutn : Bytes :=
  [131, 52, 48, 253, 143, 119, 128, 0, 64, 251, 187, 131, 52, 17, 125, 143]

/-- The network token that `samplePrimitives` (XOR family) yields for
`sampleUsimXor`, `sampleRand`, sqn = 00 00 00 00 00 21 and amf = 80 00. -/
def sampleAutnXor : Bytes :=
  [141, 210, 98, 206, 234, 136, 128, 0, 35, 68, 30, 141, 210, 67, 78, 234]

/-- The MAC the legacy verifier recomputes for a network token, under the
family selected by `auth_algo`: f1 over (secret, rand, sqn, amf) with
sqn = token[0..6) XOR AK and amf = token[6..8). -/
def expected_mac (P : Primitives) (s : usim) (rand autn_enb : Bytes) : Bytes :=
  if auth_algo_xor = s.auth_algo then
    slice (P.security_xor_f1 s.k rand
      (xorBytes autn_enb (P.security_xor_f2345 s.k rand).ak 6) (slice autn_enb 6 2)) 0 8
  else
    slice (P.security_milenage_f1 s.k s.opc rand
      (xorBytes autn_enb (P.security_milenage_f2345 s.k s.opc rand).ak 6) (slice autn_enb 6 2)) 0 8

/-- The verifier dispatch of usim.cc:123-127 and usim.cc:154-159. -/
def legacy_verifier (P : Primitives) (s : usim)
    (rand autn_enb res ak_xor_sqn : Bytes) : usim × GenAuthRes :=
  if auth_algo_xor = s.auth_algo
  then gen_auth_res_xor P s rand autn_enb res ak_xor_sqn
  else gen_auth_res_milenage P s rand autn_enb res ak_xor_sqn

/-- The f2345 call the selected family makes for (secret, [opc,] rand). -/
def selected_f2345 (P : Primitives) (s : usim) (rand : Bytes) : F2345 :=
  if auth_algo_xor = s.auth_algo
  then P.security_xor_f2345 s.k rand
  else P.security_milenage_f2345 s.k s.opc rand

/-- A serving-network name used to evaluate the definitions. -/
def sampleSnn : String := "5G:mnc070.mcc901.3gppnetwork.org"

/-- The token check of the re-authentication variant (specification 4.4,
step 2): the 8-byte network token equals MAC XOR AK_alt byte for byte, with
MAC = f1_new(secret, opc, rand) and AK_alt = f1_star_new(secret, opc, rand). -/
def token_check_new (P : Primitives) (s : usim) (rand autn_enb : Bytes) : Prop :=
  ∀ i, i < 8 → rd autn_enb i =
    rd (P.security_milenage_f1_new s.k s.opc rand) i ^^^
      rd (P.security_milenage_f1_star_new s.k s.opc rand) i

instance (P : Primitives) (s : usim) (rand autn_enb : Bytes) :
    Decidable (token_check_new P s rand autn_enb) := by
  unfold token_check_new; infer_instance

/-- The serving-network MAC check of the re-authentication variant
(specification 4.4, step 3): the caller-supplied 8-byte serving-network MAC
equals the expected one byte for byte. -/
def snmac_check (snmac xsnmac : Bytes) : Prop :=
  ∀ i, i < 8 → rd snmac i = rd xsnmac i

instance (snmac xsnmac : Bytes) : Decidable (snmac_check snmac xsnmac) := by
  unfold snmac_check; infer_instance

/-- The 8-byte network token MAC XOR AK_alt that `samplePrimitives` yields for
`sampleUsim` and `sampleRand`. -/
def sampleAutnNew : Bytes := [237, 132, 185, 50, 192, 157, 116, 176]

/-- Some contents of the uninitialised local `output`, used to evaluate the
definitions. -/
def sampleOutput : Bytes := (List.range 32).map (fun i => i + 1)

/-- The bytes of a serving-network name (its characters are ASCII). -/
def nameBytes (name : String) : Bytes := name.toList.map Char.toNat

/-- The members that no authentication routine writes: everything except the
scratch members ck, ik, ak, ak_new, amf, mac, autn, autn_new and xsnmac. -/
def usim.unwritten_eq (s t : usim) : Prop :=
  t.initiated = s.initiated ∧ t.auth_algo = s.auth_algo ∧
  t.imsi_str = s.imsi_str ∧ t.imei_str = s.imei_str ∧
  t.imsi = s.imsi ∧ t.imei = s.imei ∧
  t.k = s.k ∧ t.op = s.op ∧ t.opc = s.opc ∧ t.n = s.n

instance (s t : usim) : Decidable (s.unwritten_eq t) := by
  unfold usim.unwritten_eq; infer_instance

/-- The `char` values of a `std::string` (`str.c_str()`); a character stands
for one `char`.  Reading at index `length` gives the terminating 0. -/
def c_str (str : String) : List Nat := str.toList.map Char.toNat

/-- Conversion of an `int` to `uint8_t`. -/
def to_uint8 (x : Int) : Nat := (x % 256).toNat

/-- The statement `a += x` for `uint64_t a` and `int x`. -/
def u64_add_int (a : Nat) (x : Int) : Nat := (((a : Int) + x) % 2 ^ 64).toNat

/-- usim.cc:480-503.  The character constants are written as their values:
'0' = 48, '9' = 57, 'A' = 65, 'F' = 70, 'a' = 97; `x << 4` is `x * 16`; the
low 8 bits of `hex[i] | x` are `hex[i] | (uint8_t)x`. -/
def str_to_hex (str : String) (hex : Bytes) : Bytes :=
  let h_str := c_str str
  let len := str.length % 2 ^ 32
  forLoop (len / 2) (fun i hex =>
    let c0 : Int := rd h_str (i * 2 + 0)
    let hex :=
      if c0 ≥ 48 ∧ c0 ≤ 57 then wr hex i (to_uint8 ((c0 - 48) * 16))
      else if c0 ≥ 65 ∧ c0 ≤ 70 then wr hex i (to_uint8 (((c0 - 65) + 10) * 16))
      else wr hex i (to_uint8 (((c0 - 97) + 10) * 16))
    let c1 : Int := rd h_str (i * 2 + 1)
    if c1 ≥ 48 ∧ c1 ≤ 57 then wr hex i (rd hex i ||| to_uint8 (c1 - 48))
    else if c1 ≥ 65 ∧ c1 ≤ 70 then wr hex i (rd hex i ||| to_uint8 ((c1 - 65) + 10))
    else wr hex i (rd hex i ||| to_uint8 ((c1 - 97) + 10))) hex

/-- Modelled from the spec: the argument record of `init` (declared in a header
that is not among the sources); the fields are those usim.cc reads. -/
structure usim_args_t where
  algo : String
  using_op : Bool
  op : String
  opc : String
  k : String
  imsi : String
  imei : String
  deriving DecidableEq, Repr

/-- Modelled from the spec: the status macros of srsran/config.h (not among the
sources); the specification only distinguishes success of initialisation from
failure. -/
def SRSRAN_SUCCESS : Int := 0

/-- Modelled from the spec: the failure status (never returned by usim.cc). -/
def SRSRAN_ERROR : Int := -1

/-- The error reports of `init` (`logger.error` together with
`srsran::console`), one constructor per message. -/
inductive init_error
  | invalid_length_K
  | invalid_length_OP
  | invalid_length_OPc
  | invalid_length_IMSI
  | invalid_length_IMEI
  deriving DecidableEq, Repr

/-- What `init` hands back: the return value and the errors reported. -/
structure InitOut where
  ret : Int
  errors : List init_error
  deriving DecidableEq, Repr

/-- usim.cc:40-104.  `compute_opc` is the external routine
`compute_opc(k, op, opc)`, which writes the 16-byte OPc. -/
def init (compute_opc : Bytes → Bytes → Bytes) (s : usim) (args : usim_args_t) :
    usim × InitOut :=
  let imsi_str := args.imsi
  let imei_str := args.imei
  let imsi_c := c_str args.imsi
  let imei_c := c_str args.imei
  let auth_algo := if "xor" = args.algo then auth_algo_xor else auth_algo_milenage
  let errors : List init_error := []
  let rk : Bytes × List init_error :=
    if 32 = args.k.length then (str_to_hex args.k s.k, errors)
    else (s.k, errors ++ [init_error.invalid_length_K])
  let k := rk.1
  let errors := rk.2
  let ro : Bytes × Bytes × List init_error :=
    if auth_algo = auth_algo_milenage then
      if args.using_op then
        if 32 = args.op.length then
          (str_to_hex args.op s.op,
           store s.opc (compute_opc k (str_to_hex args.op s.op)) 16, errors)
        else (s.op, s.opc, errors ++ [init_error.invalid_length_OP])
      else
        if 32 = args.opc.length then (s.op, str_to_hex args.opc s.opc, errors)
        else (s.op, s.opc, errors ++ [init_error.invalid_length_OPc])
    else (s.op, s.opc, errors)
  let op := ro.1
  let opc := ro.2.1
  let errors := ro.2.2
  let ri : Nat × List init_error :=
    if 15 = args.imsi.length then
      (forLoop 15 (fun i imsi =>
          u64_add_int (imsi * 10 % 2 ^ 64) ((rd imsi_c i : Int) - 48)) 0, errors)
    else (s.imsi, errors ++ [init_error.invalid_length_IMSI])
  let imsi := ri.1
  let errors := ri.2
  let re : Nat × List init_error :=
    if 15 = args.imei.length then
      (forLoop 15 (fun i imei =>
          u64_add_int (imei * 10 % 2 ^ 64) ((rd imei_c i : Int) - 48)) 0, errors)
    else (s.imei, errors ++ [init_error.invalid_length_IMEI])
  let imei := re.1
  let errors := re.2
  ({ s with imsi_str := imsi_str, imei_str := imei_str, auth_algo := auth_algo, k := k,
            op := op, opc := opc, imsi := imsi, imei := imei, initiated := true },
   { ret := SRSRAN_SUCCESS, errors := errors })

/-- usim.cc:106 -/
def stop (s : usim) : usim := s

/-- The loop `for (i = lo; i < hi; i++) s = body i s`. -/
def forRange {σ : Type} (lo hi : Nat) (body : Nat → σ → σ) (s : σ) : σ :=
  forLoop (hi - lo) (fun j => body (lo + j)) s

/-- usim.cc:461-478.  `mnc_oss << (int)imsi_vec[i]` appends the decimal
rendering of the byte. -/
def get_mnc_str (imsi_vec : Bytes) (mcc_str : String) : String :=
  let mcc_len := 3
  let mnc_len :=
    if mcc_str = "310" ∨ mcc_str = "311" ∨ mcc_str = "312" ∨ mcc_str = "313" ∨ mcc_str = "316"
    then 3 else 2
  forRange mcc_len (mcc_len + mnc_len)
    (fun i mnc_oss => mnc_oss ++ toString (rd imsi_vec i)) ""

/-- Arguments of `init` used to evaluate the definitions: a well-formed
credential of the standard family. -/
def sampleArgs : usim_args_t where
  algo := "milenage"
  using_op := false
  op := ""
  opc := "63BFA50EE6523365FF14C1F45F88737D"
  k := "00112233445566778899aabbccddeeff"
  imsi := "001010123456789"
  imei := "353490069873319"

/-- An instance of the external routine `compute_opc`, used to evaluate the
definitions (test data; not the OPc derivation of 3GPP TS 35.206). -/
def sampleComputeOpc (k op : Bytes) : Bytes := xorBytes k op 16

/-- A module on which `init` has not run yet. -/
def sampleFresh : usim := { sampleUsim with initiated := false }

/-- The states of a module: the object as constructed (the static member `n`
is zero-initialised at usim.cc:36, the other members hold whatever the
constructor leaves), and every state reached from it by `init`, `stop` and the
three authentication entry points, with any arguments. -/
inductive Reachable (P : Primitives) (compute_opc : Bytes → Bytes → Bytes) : usim → Prop
  | constructed (s : usim) (hn : s.n = zeros 16) : Reachable P compute_opc s
  | init (s : usim) (args : usim_args_t) (h : Reachable P compute_opc s) :
      Reachable P compute_opc (srsue.init compute_opc s args).1
  | stop (s : usim) (h : Reachable P compute_opc s) : Reachable P compute_opc (srsue.stop s)
  | auth_4g (s : usim) (rand autn_enb : Bytes) (mcc mnc : Nat) (res k_asme_ : Bytes)
      (h : Reachable P compute_opc s) :
      Reachable P compute_opc
        (generate_authentication_response P s rand autn_enb mcc mnc res k_asme_).1
  | auth_5g (s : usim) (rand autn_enb : Bytes) (serving_network_name : String)
      (abba : Bytes) (abba_len : Nat) (res_star k_amf : Bytes)
      (h : Reachable P compute_opc s) :
      Reachable P compute_opc
        (generate_authentication_response_5g P s rand autn_enb serving_network_name
          abba abba_len res_star k_amf).1
  | auth_5g_new (s : usim) (rand autn_enb snmac : Bytes) (serving_network_name : String)
      (abba : Bytes) (abba_len : Nat) (res_star k_amf output : Bytes)
      (h : Reachable P compute_opc s) :
      Reachable P compute_opc
        (generate_authentication_response_5g_new P s rand autn_enb snmac serving_network_name
          abba abba_len res_star k_amf output).1

/-- The decimal digits. -/
def is_dec_digit (c : Char) : Prop := c ∈ "0123456789".toList

instance (c : Char) : Decidable (is_dec_digit c) := by
  unfold is_dec_digit; infer_instance

/-- The value of a decimal digit. -/
def dec_digit_value (c : Char) : Nat := c.toNat - '0'.toNat

/-- The number written by a list of decimal digit values, most significant
digit first. -/
def decimal_value : List Nat → Nat
  | [] => 0
  | d :: ds => d * 10 ^ ds.length + decimal_value ds

/-- The hexadecimal digits 0-9, a-f, A-F. -/
def is_hex_digit (c : Char) : Prop := c ∈ "0123456789abcdefABCDEF".toList

instance (c : Char) : Decidable (is_hex_digit c) := by
  unfold is_hex_digit; infer_instance

/-- The value of a hexadecimal digit (0 for any other character). -/
def hex_digit_value : Char → Nat
  | '0' => 0
  | '1' => 1
  | '2' => 2
  | '3' => 3
  | '4' => 4
  | '5' => 5
  | '6' => 6
  | '7' => 7
  | '8' => 8
  | '9' => 9
  | 'a' => 10
  | 'b' => 11
  | 'c' => 12
  | 'd' => 13
  | 'e' => 14
  | 'f' => 15
  | 'A' => 10
  | 'B' => 11
  | 'C' => 12
  | 'D' => 13
  | 'E' => 14
  | 'F' => 15
  | _ => 0

/-- The character `str[j]` (the terminating 0 from index `length` on). -/
def char_at (str : String) (j : Nat) : Char := str.toList.getD j (Char.ofNat 0)

/-- The byte that usim.cc:487-493 assigns to `hex[i]` for the first character
of a pair, given as its `char` value. -/
def high_nibble (c : Int) : Nat :=
  if c ≥ 48 ∧ c ≤ 57 then to_uint8 ((c - 48) * 16)
  else if c ≥ 65 ∧ c ≤ 70 then to_uint8 (((c - 65) + 10) * 16)
  else to_uint8 (((c - 97) + 10) * 16)

/-- The byte that usim.cc:495-501 ORs into `hex[i]` for the second character
of a pair, given as its `char` value. -/
def low_nibble (c : Int) : Nat :=
  if c ≥ 48 ∧ c ≤ 57 then to_uint8 (c - 48)
  else if c ≥ 65 ∧ c ≤ 70 then to_uint8 ((c - 65) + 10)
  else to_uint8 ((c - 97) + 10)

/-- A string of 2^32 characters '0'. -/
def longHexString : String := String.mk (List.replicate (2 ^ 32) '0')

theorem length_wr (b : Bytes) (i v : Nat) : (wr b i v).length = b.length := by
  simp [wr]

theorem rd_wr (b : Bytes) (i v j : Nat) :
    rd (wr b i v) j = if i = j ∧ j < b.length then v else rd b j := by
  unfold rd wr
  by_cases h : i = j
  · subst h
    by_cases hl : i < b.length
    · simp [List.getD_eq_getElem?_getD, hl]
    · have : b.length ≤ i := Nat.le_of_not_lt hl
      have h1 : (b.set i v)[i]? = none := List.getElem?_eq_none (by simpa using this)
      have h2 : b[i]? = none := List.getElem?_eq_none this
      simp [List.getD_eq_getElem?_getD, hl, h1, h2]
  · simp [List.getD_eq_getElem?_getD, h, List.getElem?_set_ne h]

theorem length_forLoop_wr (n : Nat) (g f : Nat → Nat) (b : Bytes) :
    (forLoop n (fun i d => wr d (g i) (f i)) b).length = b.length := by
  induction n with
  | zero => rfl
  | succ n ih => simp only [forLoop, length_wr, ih]

theorem rd_forLoop_wr (n off : Nat) (f : Nat → Nat) (b : Bytes) (j : Nat) :
    rd (forLoop n (fun i d => wr d (off + i) (f i)) b) j =
      if off ≤ j ∧ j < off + n ∧ j < b.length then f (j - off) else rd b j := by
  induction n with
  | zero =>
    have : ¬ (off ≤ j ∧ j < off + 0 ∧ j < b.length) := by omega
    simp only [forLoop, if_neg this]
  | succ n ih =>
    simp only [forLoop, rd_wr, length_forLoop_wr, ih]
    by_cases h1 : off + n = j
    · subst h1
      by_cases h2 : off + n < b.length
      · have e : off + n - off = n := by omega
        simp [h2, e]
      · simp [h2]
    · by_cases h3 : off ≤ j ∧ j < off + n ∧ j < b.length
      · have h4 : off ≤ j ∧ j < off + (n + 1) ∧ j < b.length := by omega
        simp [h1, h3, h4]
      · have h4 : ¬ (off ≤ j ∧ j < off + (n + 1) ∧ j < b.length) := by omega
        simp [h1, h3, h4]

theorem rd_forLoop_wr0 (n : Nat) (f : Nat → Nat) (b : Bytes) (j : Nat) :
    rd (forLoop n (fun i d => wr d i (f i)) b) j =
      if j < n ∧ j < b.length then f j else rd b j := by
  have h := rd_forLoop_wr n 0 f b j
  simp only [Nat.zero_add, Nat.zero_le, true_and, Nat.sub_zero] at h
  exact h

theorem length_forLoop_wr0 (n : Nat) (f : Nat → Nat) (b : Bytes) :
    (forLoop n (fun i d => wr d i (f i)) b).length = b.length :=
  length_forLoop_wr n (fun i => i) f b

theorem rd_eq_getElem (b : Bytes) (i : Nat) (h : i < b.length) : rd b i = b[i] := by
  simp [rd, List.getD_eq_getElem?_getD, h]

theorem rd_of_le (b : Bytes) (i : Nat) (h : b.length ≤ i) : rd b i = 0 := by
  simp [rd, List.getD_eq_getElem?_getD, List.getElem?_eq_none h]

theorem ext_rd (a b : Bytes) (hl : a.length = b.length)
    (h : ∀ i, i < a.length → rd a i = rd b i) : a = b := by
  apply List.ext_getElem hl
  intro i h1 h2
  have := h i h1
  rwa [rd_eq_getElem a i h1, rd_eq_getElem b i h2] at this

theorem length_memcpy (dst : Bytes) (off : Nat) (src : Bytes) (n : Nat) :
    (memcpy dst off src n).length = dst.length :=
  length_forLoop_wr n (fun i => off + i) (fun i => rd src i) dst

theorem rd_memcpy (dst : Bytes) (off : Nat) (src : Bytes) (n j : Nat) :
    rd (memcpy dst off src n) j =
      if off ≤ j ∧ j < off + n ∧ j < dst.length then rd src (j - off) else rd dst j :=
  rd_forLoop_wr n off (fun i => rd src i) dst j

theorem length_store (dst out : Bytes) (n : Nat) : (store dst out n).length = dst.length :=
  length_memcpy dst 0 out n

theorem rd_store (dst out : Bytes) (n j : Nat) :
    rd (store dst out n) j = if j < n ∧ j < dst.length then rd out j else rd dst j := by
  have h := rd_memcpy dst 0 out n j
  simp only [Nat.zero_add, Nat.zero_le, true_and, Nat.sub_zero] at h
  exact h

theorem store_full (dst out : Bytes) (n : Nat) (hd : dst.length = n) (ho : out.length = n) :
    store dst out n = out := by
  apply ext_rd
  · rw [length_store, hd, ho]
  · intro i hi
    rw [length_store] at hi
    rw [rd_store, if_pos ⟨by omega, hi⟩]

theorem view_full (p : Bytes) (n : Nat) (h : p.length = n) : view p n = p := by
  unfold view
  exact List.take_of_length_le (by omega)

theorem length_zeros (n : Nat) : (zeros n).length = n := by
  simp [zeros]

theorem forLoop_cmp (n : Nat) (a b : Bytes) (r0 : auth_result_t) :
    forLoop n (fun i r => if rd a i ≠ rd b i then AUTH_FAILED else r) r0 = AUTH_OK ↔
      r0 = AUTH_OK ∧ ∀ i, i < n → rd a i = rd b i := by
  induction n with
  | zero => simp [forLoop]
  | succ n ih =>
    simp only [forLoop]
    by_cases h : rd a n = rd b n
    · simp only [ne_eq, h, not_true_eq_false, if_false, ih]
      constructor
      · rintro ⟨h0, hall⟩
        refine ⟨h0, fun i hi => ?_⟩
        rcases Nat.lt_succ_iff_lt_or_eq.mp hi with h1 | h1
        · exact hall i h1
        · subst h1; exact h
      · rintro ⟨h0, hall⟩
        exact ⟨h0, fun i hi => hall i (Nat.lt_succ_of_lt hi)⟩
    · simp only [ne_eq, h, not_false_eq_true, if_true]
      constructor
      · intro hc; cases hc
      · rintro ⟨_, hall⟩
        exact absurd (hall n (Nat.lt_succ_self n)) h

theorem result_cases (r : auth_result_t) : r = AUTH_OK ∨ r = AUTH_FAILED := by
  cases r
  · exact Or.inl rfl
  · exact Or.inr rfl

theorem failed_ne_ok : ¬ AUTH_FAILED = AUTH_OK := by
  intro h; cases h

theorem xor_cancel (a b : Nat) : (a ^^^ b) ^^^ b = a := by
  rw [Nat.xor_assoc, Nat.xor_self, Nat.xor_zero]

theorem rd_map_range (n : Nat) (f : Nat → Nat) (j : Nat) :
    rd ((List.range n).map f) j = if j < n then f j else 0 := by
  by_cases h : j < n
  · rw [rd_eq_getElem _ _ (by simpa using h)]
    simp [h]
  · rw [rd_of_le _ _ (by simpa using Nat.le_of_not_lt h)]
    simp [h]

theorem forLoop_wr0_eq_map (n : Nat) (f : Nat → Nat) (b : Bytes) (hb : b.length = n) :
    forLoop n (fun i d => wr d i (f i)) b = (List.range n).map f := by
  apply ext_rd
  · simp [length_forLoop_wr0, hb]
  · intro i hi
    rw [length_forLoop_wr0, hb] at hi
    rw [rd_forLoop_wr0, rd_map_range, if_pos ⟨hi, by omega⟩, if_pos hi]

theorem map_range_congr (n : Nat) (f g : Nat → Nat) (h : ∀ i, i < n → f i = g i) :
    (List.range n).map f = (List.range n).map g := by
  apply List.map_congr_left
  intro i hi
  exact h i (List.mem_range.mp hi)

theorem map_range_eq_iff (n : Nat) (f g : Nat → Nat) :
    (List.range n).map f = (List.range n).map g ↔ ∀ i, i < n → f i = g i := by
  constructor
  · intro h i hi
    have := congrArg (fun l => rd l i) h
    simpa [rd_map_range, hi] using this
  · exact map_range_congr n f g

theorem eq_ite_of_iff (r : auth_result_t) (c : Prop) [Decidable c] (h : r = AUTH_OK ↔ c) :
    r = if c then AUTH_OK else AUTH_FAILED := by
  by_cases hc : c
  · rw [if_pos hc]; exact h.mpr hc
  · rw [if_neg hc]
    rcases result_cases r with h1 | h1
    · exact absurd (h.mp h1) hc
    · exact h1

theorem sqn_loop (autn_enb ak : Bytes) :
    forLoop 6 (fun i sqn => wr sqn i (rd autn_enb i ^^^ rd ak i)) (zeros 6) =
      xorBytes autn_enb ak 6 :=
  forLoop_wr0_eq_map 6 (fun i => rd autn_enb i ^^^ rd ak i) (zeros 6) (length_zeros 6)

theorem xorBytes_store (a dst out : Bytes) (n : Nat) (h : dst.length = n) :
    xorBytes a (store dst out n) n = xorBytes a out n := by
  apply map_range_congr
  intro i hi
  rw [rd_store, if_pos ⟨hi, by omega⟩]

theorem length_xorBytes (a b : Bytes) (n : Nat) : (xorBytes a b n).length = n := by
  simp [xorBytes]

theorem length_slice (b : Bytes) (lo n : Nat) : (slice b lo n).length = n := by
  simp [slice]

theorem rd_xorBytes (a b : Bytes) (n i : Nat) (h : i < n) :
    rd (xorBytes a b n) i = rd a i ^^^ rd b i := by
  unfold xorBytes
  rw [rd_map_range, if_pos h]

theorem rd_slice (b : Bytes) (lo n i : Nat) (h : i < n) : rd (slice b lo n) i = rd b (lo + i) := by
  unfold slice
  rw [rd_map_range, if_pos h]

theorem amf_loop (autn_enb amf : Bytes) (h : amf.length = 2) :
    forLoop 2 (fun i amf => wr amf i (rd autn_enb (6 + i))) amf = slice autn_enb 6 2 :=
  forLoop_wr0_eq_map 2 (fun i => rd autn_enb (6 + i)) amf h

/-- The token rebuilt by the three "Construct AUTN" loops agrees with the
network token on bytes [0,8) by construction, so the 16-byte comparison
succeeds exactly when the MAC bytes agree. -/
theorem autn_compare (sqn ak amf mac autn autn_enb : Bytes) (hautn : autn.length = 16)
    (hsqn : ∀ i, i < 6 → rd sqn i ^^^ rd ak i = rd autn_enb i)
    (hamf : ∀ i, i < 2 → rd amf i = rd autn_enb (6 + i)) :
    forLoop 16 (fun i result =>
        if rd (forLoop 8 (fun i autn => wr autn (8 + i) (rd mac i))
              (forLoop 2 (fun i autn => wr autn (6 + i) (rd amf i))
                (forLoop 6 (fun i autn => wr autn i (rd sqn i ^^^ rd ak i)) autn))) i
            ≠ rd autn_enb i
        then AUTH_FAILED else result) AUTH_OK = AUTH_OK ↔
      ∀ i, i < 8 → rd mac i = rd autn_enb (8 + i) := by
  rw [forLoop_cmp]
  have key : ∀ i, i < 16 →
      rd (forLoop 8 (fun i autn => wr autn (8 + i) (rd mac i))
              (forLoop 2 (fun i autn => wr autn (6 + i) (rd amf i))
                (forLoop 6 (fun i autn => wr autn i (rd sqn i ^^^ rd ak i)) autn))) i =
        if 8 ≤ i then rd mac (i - 8) else rd autn_enb i := by
    intro i hi
    rw [rd_forLoop_wr 8 8 (fun i => rd mac i), length_forLoop_wr, length_forLoop_wr0, hautn]
    by_cases h8 : 8 ≤ i
    · rw [if_pos ⟨h8, by omega, hi⟩, if_pos h8]
    · rw [if_neg (fun h => h8 h.1), if_neg h8,
        rd_forLoop_wr 2 6 (fun i => rd amf i), length_forLoop_wr0, hautn]
      by_cases h6 : 6 ≤ i
      · rw [if_pos ⟨h6, by omega, hi⟩, hamf (i - 6) (by omega)]
        congr 1; omega
      · rw [if_neg (fun h => h6 h.1), rd_forLoop_wr0, if_pos ⟨by omega, by omega⟩,
          hsqn i (by omega)]
  constructor
  · rintro ⟨-, h⟩ i hi
    have := h (8 + i) (by omega)
    rw [key (8 + i) (by omega), if_pos (by omega)] at this
    simpa using this
  · intro h
    refine ⟨rfl, fun i hi => ?_⟩
    rw [key i hi]
    by_cases h8 : 8 ≤ i
    · rw [if_pos h8, h (i - 8) (by omega)]
      congr 1; omega
    · rw [if_neg h8]

theorem slice_store_eq_iff (dst out b : Bytes) (hd : dst.length = 8) :
    (∀ i, i < 8 → rd (store dst out 8) i = rd b (8 + i)) ↔ slice out 0 8 = slice b 8 8 := by
  unfold slice
  rw [map_range_eq_iff]
  refine forall_congr' (fun i => imp_congr_right (fun hi => ?_))
  rw [rd_store, if_pos ⟨hi, by omega⟩, Nat.zero_add]

theorem gen_auth_res_milenage_result (P : Primitives) (s : usim)
    (rand autn_enb res akx : Bytes) (hs : s.WF) :
    (gen_auth_res_milenage P s rand autn_enb res akx).2.result =
      direct_mac_check_milenage P s.k s.opc rand autn_enb := by
  obtain ⟨-, -, -, -, -, hak, -, hamf, hmac, hautn, -, -, -⟩ := hs
  simp only [gen_auth_res_milenage, direct_mac_check_milenage]
  apply eq_ite_of_iff
  simp only [AK_LEN] at hak ⊢
  simp only [sqn_loop, amf_loop _ _ hamf, xorBytes_store _ _ _ _ hak]
  refine (autn_compare _ _ _ _ _ _ hautn ?_ ?_).trans (slice_store_eq_iff _ _ _ hmac)
  · intro i hi
    rw [rd_xorBytes _ _ _ _ hi, rd_store, if_pos ⟨hi, by omega⟩, xor_cancel]
  · intro i hi
    rw [rd_slice _ _ _ _ hi]

theorem gen_auth_res_xor_result (P : Primitives) (s : usim)
    (rand autn_enb res akx : Bytes) (hs : s.WF) :
    (gen_auth_res_xor P s rand autn_enb res akx).2.result =
      direct_mac_check_xor P s.k rand autn_enb := by
  obtain ⟨-, -, -, -, -, hak, -, hamf, hmac, hautn, -, -, -⟩ := hs
  simp only [gen_auth_res_xor, direct_mac_check_xor]
  apply eq_ite_of_iff
  simp only [AK_LEN] at hak ⊢
  simp only [sqn_loop, amf_loop _ _ hamf, xorBytes_store _ _ _ _ hak]
  refine (autn_compare _ _ _ _ _ _ hautn ?_ ?_).trans (slice_store_eq_iff _ _ _ hmac)
  · intro i hi
    rw [rd_xorBytes _ _ _ _ hi, rd_store, if_pos ⟨hi, by omega⟩, xor_cancel]
  · intro i hi
    rw [rd_slice _ _ _ _ hi]

/-- C1: for every module state with the declared array sizes and every
challenge and network token, `gen_auth_res_milenage` returns the same result
as the direct comparison of the MAC recomputed by f1 over (secret, rand, sqn,
amf), sqn = autn_enb[0..6) XOR AK, amf = autn_enb[6..8), with autn_enb[8..16);
and `gen_auth_res_xor` likewise with the XOR transforms.  In particular each
returns AUTH_OK if and only if the recomputed MAC equals token bytes [8,16). -/
theorem legacy_verifier_equiv_direct_mac_check (P : Primitives) (s : usim)
    (rand autn_enb res ak_xor_sqn : Bytes) (hs : s.WF) :
    ((gen_auth_res_milenage P s rand autn_enb res ak_xor_sqn).2.result =
        direct_mac_check_milenage P s.k s.opc rand autn_enb ∧
      ((gen_auth_res_milenage P s rand autn_enb res ak_xor_sqn).2.result = AUTH_OK ↔
        slice (P.security_milenage_f1 s.k s.opc rand
            (xorBytes autn_enb (P.security_milenage_f2345 s.k s.opc rand).ak 6)
            (slice autn_enb 6 2)) 0 8 = slice autn_enb 8 8)) ∧
    ((gen_auth_res_xor P s rand autn_enb res ak_xor_sqn).2.result =
        direct_mac_check_xor P s.k rand autn_enb ∧
      ((gen_auth_res_xor P s rand autn_enb res ak_xor_sqn).2.result = AUTH_OK ↔
        slice (P.security_xor_f1 s.k rand
            (xorBytes autn_enb (P.security_xor_f2345 s.k rand).ak 6)
            (slice autn_enb 6 2)) 0 8 = slice autn_enb 8 8)) := by
  refine ⟨⟨gen_auth_res_milenage_result P s rand autn_enb res ak_xor_sqn hs, ?_⟩,
    ⟨gen_auth_res_xor_result P s rand autn_enb res ak_xor_sqn hs, ?_⟩⟩
  · rw [gen_auth_res_milenage_result P s rand autn_enb res ak_xor_sqn hs]
    simp only [direct_mac_check_milenage]
    split_ifs with h
    · exact ⟨fun _ => h, fun _ => rfl⟩
    · exact ⟨fun hc => (by cases hc), fun hc => absurd hc h⟩
  · rw [gen_auth_res_xor_result P s rand autn_enb res ak_xor_sqn hs]
    simp only [direct_mac_check_xor]
    split_ifs with h
    · exact ⟨fun _ => h, fun _ => rfl⟩
    · exact ⟨fun hc => (by cases hc), fun hc => absurd hc h⟩

theorem legacy_verifier_equiv_direct_mac_check_witness :
    sampleUsim.WF ∧
    (gen_auth_res_milenage samplePrimitives sampleUsim sampleRand sampleAutn
        (zeros 8) (zeros 6)).2.result =
      direct_mac_check_milenage samplePrimitives sampleUsim.k sampleUsim.opc sampleRand
        sampleAutn :=
  ⟨by decide,
   (legacy_verifier_equiv_direct_mac_check samplePrimitives sampleUsim sampleRand sampleAutn
      (zeros 8) (zeros 6) (by decide)).1.1⟩

theorem rd_append (a b : Bytes) (i : Nat) :
    rd (a ++ b) i = if i < a.length then rd a i else rd b (i - a.length) := by
  unfold rd
  by_cases h : i < a.length
  · simp [List.getD_eq_getElem?_getD, h, List.getElem?_append_left h]
  · simp [List.getD_eq_getElem?_getD, h, List.getElem?_append_right (Nat.le_of_not_lt h)]

theorem slice_zero_full (b : Bytes) (n : Nat) (h : b.length = n) : slice b 0 n = b := by
  apply ext_rd
  · rw [length_slice, h]
  · intro i hi
    rw [length_slice] at hi
    rw [rd_slice _ _ _ _ hi, Nat.zero_add]

theorem ak_xor_sqn_loop (autn_enb ak akx : Bytes) (h : akx.length = 6) :
    forLoop 6 (fun i a => wr a i (rd (xorBytes autn_enb ak 6) i ^^^ rd ak i)) akx =
      slice autn_enb 0 6 := by
  rw [forLoop_wr0_eq_map 6 _ akx h]
  unfold slice
  apply map_range_congr
  intro i hi
  rw [rd_xorBytes _ _ _ _ hi, xor_cancel, Nat.zero_add]

/-- The value handed back in `ak_xor_sqn` by `gen_auth_res_milenage`. -/
theorem gen_auth_res_milenage_ak_xor_sqn (P : Primitives) (s : usim)
    (rand autn_enb res akx : Bytes) (h : akx.length = 6) :
    (gen_auth_res_milenage P s rand autn_enb res akx).2.ak_xor_sqn = slice autn_enb 0 6 := by
  simp only [gen_auth_res_milenage, sqn_loop]
  exact ak_xor_sqn_loop _ _ _ h

/-- The value handed back in `ak_xor_sqn` by `gen_auth_res_xor`. -/
theorem gen_auth_res_xor_ak_xor_sqn (P : Primitives) (s : usim)
    (rand autn_enb res akx : Bytes) (h : akx.length = 6) :
    (gen_auth_res_xor P s rand autn_enb res akx).2.ak_xor_sqn = slice autn_enb 0 6 := by
  simp only [gen_auth_res_xor, sqn_loop]
  exact ak_xor_sqn_loop _ _ _ h

/-- The token `(sqn XOR AK) || amf || mac`. -/
theorem rd_token (sqn ak amf mac : Bytes) (hamf : amf.length = 2) (i : Nat) :
    rd (xorBytes sqn ak 6 ++ amf ++ mac) i =
      if i < 6 then rd sqn i ^^^ rd ak i else if i < 8 then rd amf (i - 6) else rd mac (i - 8) := by
  rw [rd_append, List.length_append, length_xorBytes, hamf, rd_append, length_xorBytes]
  by_cases h6 : i < 6
  · rw [if_pos (by omega), if_pos h6, if_pos h6, rd_xorBytes _ _ _ _ h6]
  · by_cases h8 : i < 8
    · rw [if_pos h8, if_neg h6, if_neg h6, if_pos h8]
    · rw [if_neg h8, if_neg h6, if_neg h8]

/-- C2: round trip.  If the network token is built as
(sqn XOR AK) || amf || f1(secret, opc, rand, sqn, amf) from a 6-byte sqn and a
2-byte amf, AK being the anonymity key that the verifier's own f2345 yields for
(secret, opc, rand), then `gen_auth_res_milenage` returns AUTH_OK and the
`ak_xor_sqn` it outputs equals sqn XOR AK byte for byte. -/
theorem milenage_round_trip (P : Primitives) (s : usim) (rand sqn amf res ak_xor_sqn : Bytes)
    (hs : s.WF) (hsqn : sqn.length = 6) (hamf : amf.length = 2)
    (hakx : ak_xor_sqn.length = 6) :
    (gen_auth_res_milenage P s rand
        (xorBytes sqn (P.security_milenage_f2345 s.k s.opc rand).ak 6 ++ amf ++
          P.security_milenage_f1 s.k s.opc rand sqn amf) res ak_xor_sqn).2.result = AUTH_OK ∧
    (gen_auth_res_milenage P s rand
        (xorBytes sqn (P.security_milenage_f2345 s.k s.opc rand).ak 6 ++ amf ++
          P.security_milenage_f1 s.k s.opc rand sqn amf) res ak_xor_sqn).2.ak_xor_sqn =
      xorBytes sqn (P.security_milenage_f2345 s.k s.opc rand).ak 6 := by
  constructor
  · rw [gen_auth_res_milenage_result P s rand _ res ak_xor_sqn hs]
    simp only [direct_mac_check_milenage]
    have e1 : xorBytes (xorBytes sqn (P.security_milenage_f2345 s.k s.opc rand).ak 6 ++ amf ++
          P.security_milenage_f1 s.k s.opc rand sqn amf)
          (P.security_milenage_f2345 s.k s.opc rand).ak 6 = sqn := by
      apply ext_rd
      · rw [length_xorBytes, hsqn]
      · intro i hi
        rw [length_xorBytes] at hi
        rw [rd_xorBytes _ _ _ _ hi, rd_token _ _ _ _ hamf, if_pos hi, xor_cancel]
    have e2 : slice (xorBytes sqn (P.security_milenage_f2345 s.k s.opc rand).ak 6 ++ amf ++
          P.security_milenage_f1 s.k s.opc rand sqn amf) 6 2 = amf := by
      apply ext_rd
      · rw [length_slice, hamf]
      · intro i hi
        rw [length_slice] at hi
        rw [rd_slice _ _ _ _ hi, rd_token _ _ _ _ hamf, if_neg (by omega), if_pos (by omega)]
        congr 1; omega
    rw [e1, e2, if_pos]
    unfold slice
    apply map_range_congr
    intro i hi
    rw [rd_token _ _ _ _ hamf, if_neg (by omega), if_neg (by omega), Nat.zero_add]
    congr 1; omega
  · rw [gen_auth_res_milenage_ak_xor_sqn P s rand _ res ak_xor_sqn hakx]
    apply ext_rd
    · rw [length_slice, length_xorBytes]
    · intro i hi
      rw [length_slice] at hi
      rw [rd_slice _ _ _ _ hi, rd_token _ _ _ _ hamf, Nat.zero_add, if_pos hi,
        rd_xorBytes _ _ _ _ hi]

theorem milenage_round_trip_witness :
    sampleUsim.WF ∧ [0, 0, 0, 0, 0, 0x21].length = 6 ∧ [0x80, 0].length = 2 ∧
    (zeros 6).length = 6 ∧
    (gen_auth_res_milenage samplePrimitives sampleUsim sampleRand
        (xorBytes [0, 0, 0, 0, 0, 0x21]
            (samplePrimitives.security_milenage_f2345 sampleUsim.k sampleUsim.opc sampleRand).ak 6
          ++ [0x80, 0] ++
          samplePrimitives.security_milenage_f1 sampleUsim.k sampleUsim.opc sampleRand
            [0, 0, 0, 0, 0, 0x21] [0x80, 0]) (zeros 8) (zeros 6)).2.result = AUTH_OK :=
  ⟨by decide, by decide, by decide, by decide,
   (milenage_round_trip samplePrimitives sampleUsim sampleRand [0, 0, 0, 0, 0, 0x21] [0x80, 0]
      (zeros 8) (zeros 6) (by decide) (by decide) (by decide) (by decide)).1⟩

theorem generate_authentication_response_result (P : Primitives) (s : usim)
    (rand autn_enb : Bytes) (mcc mnc : Nat) (res k_asme_ : Bytes) :
    (generate_authentication_response P s rand autn_enb mcc mnc res k_asme_).2.result =
      (if auth_algo_xor = s.auth_algo
        then gen_auth_res_xor P s rand autn_enb res (zeros 6)
        else gen_auth_res_milenage P s rand autn_enb res (zeros 6)).2.result := by
  unfold generate_authentication_response
  simp only []
  split_ifs <;> simp only []

theorem generate_authentication_response_ok_iff (P : Primitives) (s : usim)
    (rand autn_enb : Bytes) (mcc mnc : Nat) (res k_asme_ : Bytes) (hs : s.WF) :
    (generate_authentication_response P s rand autn_enb mcc mnc res k_asme_).2.result = AUTH_OK ↔
      expected_mac P s rand autn_enb = slice autn_enb 8 8 := by
  rw [generate_authentication_response_result]
  unfold expected_mac
  by_cases hx : auth_algo_xor = s.auth_algo
  · rw [if_pos hx, if_pos hx, gen_auth_res_xor_result P s rand autn_enb res _ hs]
    simp only [direct_mac_check_xor]
    split_ifs with h
    · exact ⟨fun _ => h, fun _ => rfl⟩
    · exact ⟨fun hc => (by cases hc), fun hc => absurd hc h⟩
  · rw [if_neg hx, if_neg hx, gen_auth_res_milenage_result P s rand autn_enb res _ hs]
    simp only [direct_mac_check_milenage]
    split_ifs with h
    · exact ⟨fun _ => h, fun _ => rfl⟩
    · exact ⟨fun hc => (by cases hc), fun hc => absurd hc h⟩

theorem expected_mac_congr (P : Primitives) (s : usim) (rand a b : Bytes)
    (h : ∀ i, i < 8 → rd a i = rd b i) :
    expected_mac P s rand a = expected_mac P s rand b := by
  have e1 : ∀ ak, xorBytes a ak 6 = xorBytes b ak 6 := by
    intro ak
    apply map_range_congr
    intro i hi
    rw [h i (by omega)]
  have e2 : slice a 6 2 = slice b 6 2 := by
    apply map_range_congr
    intro i hi
    exact h (6 + i) (by omega)
  unfold expected_mac
  rw [e1, e1, e2]

theorem not_ok_iff_failed (r : auth_result_t) : r = AUTH_FAILED ↔ ¬ r = AUTH_OK := by
  cases r <;> simp

/-- What the legacy verifier does with a token changed in one byte.  Let a
token verify OK and let a second token differ from it in exactly one byte, at
position p < 16.  If p lies in the MAC field (8..15),
`generate_authentication_response` returns AUTH_FAILED for the second token.
If p lies in the SQN XOR AK / AMF field (0..7), it returns AUTH_FAILED exactly
when the MAC that the selected family's f1 yields for the changed sqn/amf
differs from the MAC of the first token; whether it does is a property of the
external f1. -/
theorem one_byte_change_verdict (P : Primitives) (s : usim)
    (rand autn_enb autn_bad : Bytes) (mcc mnc : Nat) (res k_asme_ : Bytes) (p : Nat)
    (hs : s.WF)
    (hok : (generate_authentication_response P s rand autn_enb mcc mnc res k_asme_).2.result
      = AUTH_OK)
    (hp : p < 16) (hbad : rd autn_bad p ≠ rd autn_enb p)
    (hsame : ∀ j, j < 16 → j ≠ p → rd autn_bad j = rd autn_enb j) :
    (8 ≤ p →
      (generate_authentication_response P s rand autn_bad mcc mnc res k_asme_).2.result
        = AUTH_FAILED) ∧
    (p < 8 →
      ((generate_authentication_response P s rand autn_bad mcc mnc res k_asme_).2.result
          = AUTH_FAILED ↔
        expected_mac P s rand autn_bad ≠ expected_mac P s rand autn_enb)) := by
  rw [generate_authentication_response_ok_iff _ _ _ _ _ _ _ _ hs] at hok
  rw [not_ok_iff_failed, generate_authentication_response_ok_iff _ _ _ _ _ _ _ _ hs]
  constructor
  · intro h8
    have e : expected_mac P s rand autn_bad = expected_mac P s rand autn_enb :=
      expected_mac_congr P s rand _ _ (fun i hi => hsame i (by omega) (by omega))
    rw [e, hok]
    intro hc
    have := congrArg (fun l => rd l (p - 8)) hc
    simp only [rd_slice _ _ _ _ (show p - 8 < 8 by omega)] at this
    rw [show 8 + (p - 8) = p by omega] at this
    exact hbad this.symm
  · intro h8
    have e : slice autn_bad 8 8 = slice autn_enb 8 8 := by
      apply map_range_congr
      intro i hi
      exact hsame (8 + i) (by omega) (by omega)
    rw [e, ← hok]

theorem gen_auth_res_milenage_calls (P : Primitives) (s : usim) (rand autn_enb res akx : Bytes) :
    (gen_auth_res_milenage P s rand autn_enb res akx).2.calls =
      [Call.security_milenage_f2345, Call.security_milenage_f1] := by
  simp only [gen_auth_res_milenage]

theorem gen_auth_res_xor_calls (P : Primitives) (s : usim) (rand autn_enb res akx : Bytes) :
    (gen_auth_res_xor P s rand autn_enb res akx).2.calls =
      [Call.security_xor_f2345, Call.security_xor_f1] := by
  simp only [gen_auth_res_xor]

theorem gen_auth_res_milenage_new_calls (P : Primitives) (s : usim)
    (rand autn_enb snmac res : Bytes) (snn : String) (output : Bytes) :
    (gen_auth_res_milenage_new P s rand autn_enb snmac res snn output).2.calls =
      [Call.security_milenage_f2345_new, Call.security_milenage_f1_new,
       Call.security_milenage_f1_star_new, Call.sha256_hash] := by
  simp only [gen_auth_res_milenage_new]

theorem legacy_calls_not_key_derivation (P : Primitives) (s : usim)
    (rand autn_enb res akx : Bytes) (c : Call)
    (hc : c ∈ (if auth_algo_xor = s.auth_algo
        then gen_auth_res_xor P s rand autn_enb res akx
        else gen_auth_res_milenage P s rand autn_enb res akx).2.calls) :
    c.isKeyDerivation = false := by
  split_ifs at hc
  · rw [gen_auth_res_xor_calls] at hc
    simp only [List.mem_cons, List.mem_singleton, List.not_mem_nil, or_false] at hc
    rcases hc with h | h <;> subst h <;> rfl
  · rw [gen_auth_res_milenage_calls] at hc
    simp only [List.mem_cons, List.mem_singleton, List.not_mem_nil, or_false] at hc
    rcases hc with h | h <;> subst h <;> rfl

/-- C4: no derived key is exposed on failure.  Whenever
`generate_authentication_response`, `generate_authentication_response_5g` or
`generate_authentication_response_5g_new` returns AUTH_FAILED, the caller's
derived-key buffers (k_asme for 4G; res_star and k_amf for the two 5G paths)
hold exactly what they held before the call, and none of the routines called
is a key-derivation function. -/
theorem no_key_on_failure (P : Primitives) (s : usim)
    (rand autn_enb snmac : Bytes) (mcc mnc : Nat) (serving_network_name : String)
    (abba : Bytes) (abba_len : Nat) (res k_asme_ res_star k_amf output : Bytes) :
    ((generate_authentication_response P s rand autn_enb mcc mnc res k_asme_).2.result
        = AUTH_FAILED →
      (generate_authentication_response P s rand autn_enb mcc mnc res k_asme_).2.k_asme
        = k_asme_ ∧
      ∀ c, c ∈ (generate_authentication_response P s rand autn_enb mcc mnc res k_asme_).2.calls →
        c.isKeyDerivation = false) ∧
    ((generate_authentication_response_5g P s rand autn_enb serving_network_name abba abba_len
          res_star k_amf).2.result = AUTH_FAILED →
      (generate_authentication_response_5g P s rand autn_enb serving_network_name abba abba_len
          res_star k_amf).2.res_star = res_star ∧
      (generate_authentication_response_5g P s rand autn_enb serving_network_name abba abba_len
          res_star k_amf).2.k_amf = k_amf ∧
      ∀ c, c ∈ (generate_authentication_response_5g P s rand autn_enb serving_network_name abba
          abba_len res_star k_amf).2.calls → c.isKeyDerivation = false) ∧
    ((generate_authentication_response_5g_new P s rand autn_enb snmac serving_network_name abba
          abba_len res_star k_amf output).2.result = AUTH_FAILED →
      (generate_authentication_response_5g_new P s rand autn_enb snmac serving_network_name abba
          abba_len res_star k_amf output).2.res_star = res_star ∧
      (generate_authentication_response_5g_new P s rand autn_enb snmac serving_network_name abba
          abba_len res_star k_amf output).2.k_amf = k_amf ∧
      ∀ c, c ∈ (generate_authentication_response_5g_new P s rand autn_enb snmac
          serving_network_name abba abba_len res_star k_amf output).2.calls →
        c.isKeyDerivation = false) := by
  refine ⟨?_, ?_, ?_⟩
  · unfold generate_authentication_response
    simp only []
    split_ifs with hx hok hok
    · simp only [hok]
      intro h; cases h
    · simp only []
      exact fun _ => ⟨trivial, fun c hc => legacy_calls_not_key_derivation P s rand autn_enb res
        (zeros 6) c (by rw [if_pos hx]; exact hc)⟩
    · simp only [hok]
      intro h; cases h
    · simp only []
      exact fun _ => ⟨trivial, fun c hc => legacy_calls_not_key_derivation P s rand autn_enb res
        (zeros 6) c (by rw [if_neg hx]; exact hc)⟩
  · unfold generate_authentication_response_5g
    simp only []
    split_ifs with hx hok hok
    · simp only [hok]
      intro h; cases h
    · simp only []
      exact fun _ => ⟨trivial, trivial, fun c hc => legacy_calls_not_key_derivation P s rand autn_enb
        (zeros 16) (zeros 6) c (by rw [if_pos hx]; exact hc)⟩
    · simp only [hok]
      intro h; cases h
    · simp only []
      exact fun _ => ⟨trivial, trivial, fun c hc => legacy_calls_not_key_derivation P s rand autn_enb
        (zeros 16) (zeros 6) c (by rw [if_neg hx]; exact hc)⟩
  · unfold generate_authentication_response_5g_new
    simp only []
    by_cases hx : auth_algo_xor = s.auth_algo
    · simp only [if_pos hx, if_neg failed_ne_ok]
      exact fun _ => ⟨trivial, trivial, fun c hc => absurd hc (List.not_mem_nil c)⟩
    · simp only [if_neg hx]
      split_ifs with hok
      · simp only [hok]
        intro h; cases h
      · simp only []
        refine fun _ => ⟨trivial, trivial, fun c hc => ?_⟩
        rw [gen_auth_res_milenage_new_calls] at hc
        simp only [List.mem_cons, List.mem_singleton, List.not_mem_nil, or_false] at hc
        rcases hc with h | h | h | h <;> subst h <;> rfl

theorem no_key_on_failure_witness :
    (generate_authentication_response samplePrimitives sampleUsim sampleRand (zeros 16)
        901 70 (zeros 8) (List.replicate 32 0xaa)).2.result = AUTH_FAILED ∧
    (generate_authentication_response samplePrimitives sampleUsim sampleRand (zeros 16)
        901 70 (zeros 8) (List.replicate 32 0xaa)).2.k_asme = List.replicate 32 0xaa :=
  ⟨by decide,
   ((no_key_on_failure samplePrimitives sampleUsim sampleRand (zeros 16) (zeros 8) 901 70
      sampleSnn [0, 0] 2 (zeros 8) (List.replicate 32 0xaa) (zeros 16) (zeros 32)
      (zeros 32)).1 (by decide)).1⟩

theorem rd_take (b : Bytes) (n i : Nat) (h : i < n) : rd (b.take n) i = rd b i := by
  unfold rd
  simp [List.getD_eq_getElem?_getD, List.getElem?_take_of_lt h]

theorem view_eq_slice (b : Bytes) (n : Nat) (h : n ≤ b.length) : view b n = slice b 0 n := by
  apply ext_rd
  · rw [length_slice]
    unfold view
    rw [List.length_take]
    omega
  · intro i hi
    have hi2 : i < n := by
      unfold view at hi
      rw [List.length_take] at hi
      omega
    unfold view
    rw [rd_take _ _ _ hi2, rd_slice _ _ _ _ hi2, Nat.zero_add]

theorem view_store (dst out : Bytes) (n : Nat) (h : n ≤ dst.length) :
    view (store dst out n) n = slice out 0 n := by
  rw [view_eq_slice _ _ (by rw [length_store]; exact h)]
  apply map_range_congr
  intro i hi
  rw [Nat.zero_add, rd_store, if_pos ⟨hi, by omega⟩]

theorem gen_auth_res_milenage_keys (P : Primitives) (s : usim)
    (rand autn_enb res akx : Bytes) (hs : s.WF) (hP : P.WF) :
    (gen_auth_res_milenage P s rand autn_enb res akx).1.ck =
        (P.security_milenage_f2345 s.k s.opc rand).ck ∧
    (gen_auth_res_milenage P s rand autn_enb res akx).1.ik =
        (P.security_milenage_f2345 s.k s.opc rand).ik := by
  obtain ⟨-, -, -, hck, hik, -⟩ := hs
  obtain ⟨h1, -⟩ := hP
  obtain ⟨-, h2, h3, -⟩ := h1 s.k s.opc rand
  simp only [gen_auth_res_milenage]
  exact ⟨store_full _ _ _ hck h2, store_full _ _ _ hik h3⟩

theorem gen_auth_res_xor_keys (P : Primitives) (s : usim)
    (rand autn_enb res akx : Bytes) (hs : s.WF) (hP : P.WF) :
    (gen_auth_res_xor P s rand autn_enb res akx).1.ck = (P.security_xor_f2345 s.k rand).ck ∧
    (gen_auth_res_xor P s rand autn_enb res akx).1.ik = (P.security_xor_f2345 s.k rand).ik := by
  obtain ⟨-, -, -, hck, hik, -⟩ := hs
  obtain ⟨-, -, h1, -⟩ := hP
  obtain ⟨-, h2, h3, -⟩ := h1 s.k rand
  simp only [gen_auth_res_xor]
  exact ⟨store_full _ _ _ hck h2, store_full _ _ _ hik h3⟩

theorem gen_auth_res_milenage_res (P : Primitives) (s : usim)
    (rand autn_enb res akx : Bytes) (hres : 8 ≤ res.length) :
    (gen_auth_res_milenage P s rand autn_enb res akx).2.res_len = 8 ∧
    view (gen_auth_res_milenage P s rand autn_enb res akx).2.res 8 =
      slice (P.security_milenage_f2345 s.k s.opc rand).res 0 8 := by
  simp only [gen_auth_res_milenage]
  exact ⟨trivial, view_store _ _ _ hres⟩

theorem gen_auth_res_xor_res (P : Primitives) (s : usim)
    (rand autn_enb res akx : Bytes) (hres : 8 ≤ res.length) :
    (gen_auth_res_xor P s rand autn_enb res akx).2.res_len = 8 ∧
    view (gen_auth_res_xor P s rand autn_enb res akx).2.res 8 =
      slice (P.security_xor_f2345 s.k rand).res 0 8 := by
  simp only [gen_auth_res_xor]
  refine ⟨trivial, ?_⟩
  rw [view_eq_slice _ _ (by rw [length_forLoop_wr0]; exact hres)]
  apply map_range_congr
  intro i hi
  rw [Nat.zero_add, rd_forLoop_wr0, if_pos ⟨hi, by omega⟩, rd_store,
    if_pos ⟨by omega, by rw [length_zeros]; omega⟩]

theorem legacy_verifier_keys (P : Primitives) (s : usim)
    (rand autn_enb res akx : Bytes) (hs : s.WF) (hP : P.WF) :
    (legacy_verifier P s rand autn_enb res akx).1.ck = (selected_f2345 P s rand).ck ∧
    (legacy_verifier P s rand autn_enb res akx).1.ik = (selected_f2345 P s rand).ik := by
  unfold legacy_verifier selected_f2345
  split_ifs
  · exact gen_auth_res_xor_keys P s rand autn_enb res akx hs hP
  · exact gen_auth_res_milenage_keys P s rand autn_enb res akx hs hP

theorem length_selected_res (P : Primitives) (s : usim) (rand : Bytes) (hP : P.WF) :
    8 ≤ (selected_f2345 P s rand).res.length := by
  obtain ⟨h1, -, h2, -⟩ := hP
  unfold selected_f2345
  split_ifs
  · rw [(h2 s.k rand).1]; omega
  · rw [(h1 s.k s.opc rand).1]

theorem legacy_verifier_res (P : Primitives) (s : usim)
    (rand autn_enb res akx : Bytes) (hP : P.WF) (hres : 8 ≤ res.length) :
    (legacy_verifier P s rand autn_enb res akx).2.res_len = 8 ∧
    view (legacy_verifier P s rand autn_enb res akx).2.res 8 =
      view (selected_f2345 P s rand).res 8 := by
  rw [view_eq_slice _ _ (length_selected_res P s rand hP)]
  unfold legacy_verifier selected_f2345
  split_ifs
  · exact gen_auth_res_xor_res P s rand autn_enb res akx hres
  · exact gen_auth_res_milenage_res P s rand autn_enb res akx hres

theorem legacy_verifier_ak_xor_sqn (P : Primitives) (s : usim)
    (rand autn_enb res akx : Bytes) (h : akx.length = 6) :
    (legacy_verifier P s rand autn_enb res akx).2.ak_xor_sqn = slice autn_enb 0 6 := by
  unfold legacy_verifier
  split_ifs
  · exact gen_auth_res_xor_ak_xor_sqn P s rand autn_enb res akx h
  · exact gen_auth_res_milenage_ak_xor_sqn P s rand autn_enb res akx h

theorem generate_authentication_response_unfold (P : Primitives) (s : usim)
    (rand autn_enb : Bytes) (mcc mnc : Nat) (res k_asme_ : Bytes) :
    generate_authentication_response P s rand autn_enb mcc mnc res k_asme_ =
      if (legacy_verifier P s rand autn_enb res (zeros 6)).2.result = AUTH_OK then
        ((legacy_verifier P s rand autn_enb res (zeros 6)).1,
         { result := (legacy_verifier P s rand autn_enb res (zeros 6)).2.result,
           res := (legacy_verifier P s rand autn_enb res (zeros 6)).2.res,
           res_len := (legacy_verifier P s rand autn_enb res (zeros 6)).2.res_len,
           k_asme := store k_asme_ (P.security_generate_k_asme
             (legacy_verifier P s rand autn_enb res (zeros 6)).1.ck
             (legacy_verifier P s rand autn_enb res (zeros 6)).1.ik
             (legacy_verifier P s rand autn_enb res (zeros 6)).2.ak_xor_sqn mcc mnc) 32,
           calls := (legacy_verifier P s rand autn_enb res (zeros 6)).2.calls ++
             [Call.security_generate_k_asme] })
      else
        ((legacy_verifier P s rand autn_enb res (zeros 6)).1,
         { result := (legacy_verifier P s rand autn_enb res (zeros 6)).2.result,
           res := (legacy_verifier P s rand autn_enb res (zeros 6)).2.res,
           res_len := (legacy_verifier P s rand autn_enb res (zeros 6)).2.res_len,
           k_asme := k_asme_,
           calls := (legacy_verifier P s rand autn_enb res (zeros 6)).2.calls }) := by
  unfold generate_authentication_response legacy_verifier
  simp only []

/-- C5: 4G path postcondition.  Whenever `generate_authentication_response`
returns AUTH_OK, `*res_len` is 8, the first 8 bytes of `res` are the first 8
bytes of the RES that the selected family's f2345 produces for (secret, [opc,]
rand), and `k_asme` is security_generate_k_asme(CK, IK, AK xor SQN, mcc, mnc)
with CK and IK the outputs of that same f2345 call and AK xor SQN the 6-byte
value output by the verifier for this token. -/
theorem k_asme_postcondition (P : Primitives) (s : usim)
    (rand autn_enb : Bytes) (mcc mnc : Nat) (res k_asme_ : Bytes)
    (hs : s.WF) (hP : P.WF) (hres : 8 ≤ res.length) (hk : k_asme_.length = 32)
    (hok : (generate_authentication_response P s rand autn_enb mcc mnc res k_asme_).2.result
      = AUTH_OK) :
    (generate_authentication_response P s rand autn_enb mcc mnc res k_asme_).2.res_len = 8 ∧
    view (generate_authentication_response P s rand autn_enb mcc mnc res k_asme_).2.res 8 =
      view (selected_f2345 P s rand).res 8 ∧
    (generate_authentication_response P s rand autn_enb mcc mnc res k_asme_).2.k_asme =
      P.security_generate_k_asme (selected_f2345 P s rand).ck (selected_f2345 P s rand).ik
        (legacy_verifier P s rand autn_enb res (zeros 6)).2.ak_xor_sqn mcc mnc := by
  have hv : (legacy_verifier P s rand autn_enb res (zeros 6)).2.result = AUTH_OK := by
    rw [generate_authentication_response_result] at hok
    exact hok
  rw [generate_authentication_response_unfold, if_pos hv]
  simp only []
  obtain ⟨hck, hik⟩ := legacy_verifier_keys P s rand autn_enb res (zeros 6) hs hP
  obtain ⟨hlen, hr⟩ := legacy_verifier_res P s rand autn_enb res (zeros 6) hP hres
  refine ⟨hlen, hr, ?_⟩
  rw [hck, hik]
  exact store_full _ _ _ hk (hP.2.2.2.2.2.2.2.2.1 _ _ _ _ _)

theorem samplePrimitives_WF : samplePrimitives.WF := by
  simp [Primitives.WF, samplePrimitives, xorBytes, slice]

theorem k_asme_postcondition_witness :
    sampleUsim.WF ∧ samplePrimitives.WF ∧ 8 ≤ (zeros 8).length ∧ (zeros 32).length = 32 ∧
    (generate_authentication_response samplePrimitives sampleUsim sampleRand sampleAutn
        901 70 (zeros 8) (zeros 32)).2.result = AUTH_OK ∧
    (generate_authentication_response samplePrimitives sampleUsim sampleRand sampleAutn
        901 70 (zeros 8) (zeros 32)).2.res_len = 8 :=
  ⟨by decide, samplePrimitives_WF, by decide, by decide, by decide,
   (k_asme_postcondition samplePrimitives sampleUsim sampleRand sampleAutn 901 70
      (zeros 8) (zeros 32) (by decide) samplePrimitives_WF (by decide) (by decide)
      (by decide)).1⟩

theorem legacy_verifier_imsi_str (P : Primitives) (s : usim) (rand autn_enb res akx : Bytes) :
    (legacy_verifier P s rand autn_enb res akx).1.imsi_str = s.imsi_str := by
  unfold legacy_verifier
  split_ifs
  · simp only [gen_auth_res_xor]
  · simp only [gen_auth_res_milenage]

theorem generate_authentication_response_5g_result (P : Primitives) (s : usim)
    (rand autn_enb : Bytes) (snn : String) (abba : Bytes) (abba_len : Nat)
    (res_star k_amf : Bytes) :
    (generate_authentication_response_5g P s rand autn_enb snn abba abba_len
        res_star k_amf).2.result =
      (legacy_verifier P s rand autn_enb (zeros 16) (zeros 6)).2.result := by
  unfold generate_authentication_response_5g legacy_verifier
  simp only []
  split_ifs <;> simp only []

theorem generate_authentication_response_5g_ok (P : Primitives) (s : usim)
    (rand autn_enb : Bytes) (snn : String) (abba : Bytes) (abba_len : Nat)
    (res_star k_amf : Bytes)
    (hv : (legacy_verifier P s rand autn_enb (zeros 16) (zeros 6)).2.result = AUTH_OK) :
    (generate_authentication_response_5g P s rand autn_enb snn abba abba_len res_star k_amf).2 =
      { result := AUTH_OK,
        res_star := store res_star (P.security_generate_res_star
          (legacy_verifier P s rand autn_enb (zeros 16) (zeros 6)).1.ck
          (legacy_verifier P s rand autn_enb (zeros 16) (zeros 6)).1.ik snn rand
          (view (legacy_verifier P s rand autn_enb (zeros 16) (zeros 6)).2.res
            (legacy_verifier P s rand autn_enb (zeros 16) (zeros 6)).2.res_len)
          (legacy_verifier P s rand autn_enb (zeros 16) (zeros 6)).2.res_len) 16,
        k_amf := store k_amf (P.security_generate_k_amf
          (store (zeros 32) (P.security_generate_k_seaf
            (store (zeros 32) (P.security_generate_k_ausf
              (legacy_verifier P s rand autn_enb (zeros 16) (zeros 6)).1.ck
              (legacy_verifier P s rand autn_enb (zeros 16) (zeros 6)).1.ik
              (legacy_verifier P s rand autn_enb (zeros 16) (zeros 6)).2.ak_xor_sqn snn) 32)
            snn) 32)
          (legacy_verifier P s rand autn_enb (zeros 16) (zeros 6)).1.imsi_str
          (view abba abba_len) abba_len) 32,
        k_ausf := store (zeros 32) (P.security_generate_k_ausf
          (legacy_verifier P s rand autn_enb (zeros 16) (zeros 6)).1.ck
          (legacy_verifier P s rand autn_enb (zeros 16) (zeros 6)).1.ik
          (legacy_verifier P s rand autn_enb (zeros 16) (zeros 6)).2.ak_xor_sqn snn) 32,
        k_seaf := store (zeros 32) (P.security_generate_k_seaf
          (store (zeros 32) (P.security_generate_k_ausf
            (legacy_verifier P s rand autn_enb (zeros 16) (zeros 6)).1.ck
            (legacy_verifier P s rand autn_enb (zeros 16) (zeros 6)).1.ik
            (legacy_verifier P s rand autn_enb (zeros 16) (zeros 6)).2.ak_xor_sqn snn) 32)
          snn) 32,
        calls := (legacy_verifier P s rand autn_enb (zeros 16) (zeros 6)).2.calls ++
          [Call.security_generate_res_star, Call.security_generate_k_ausf,
           Call.security_generate_k_seaf, Call.security_generate_k_amf] } := by
  unfold legacy_verifier at hv ⊢
  unfold generate_authentication_response_5g
  simp only []
  rw [if_pos hv]
  simp only [hv]

/-- C6: 5G-AKA chain postcondition.  Whenever
`generate_authentication_response_5g` returns AUTH_OK,
res_star = security_generate_res_star(CK, IK, serving_network_name, rand, RES, 8),
K_AUSF = security_generate_k_ausf(CK, IK, AK xor SQN, serving_network_name),
K_SEAF = security_generate_k_seaf(K_AUSF, serving_network_name) and
k_amf = security_generate_k_amf(K_SEAF, IMSI string, abba, abba_len), where CK,
IK and RES are the outputs of the selected family's f2345 for this challenge
and AK xor SQN is the value output by the verifier for this token. -/
theorem key_chain_5g_postcondition (P : Primitives) (s : usim)
    (rand autn_enb : Bytes) (serving_network_name : String) (abba : Bytes) (abba_len : Nat)
    (res_star k_amf : Bytes)
    (hs : s.WF) (hP : P.WF) (hrs : res_star.length = 16) (hka : k_amf.length = 32)
    (hok : (generate_authentication_response_5g P s rand autn_enb serving_network_name
      abba abba_len res_star k_amf).2.result = AUTH_OK) :
    (generate_authentication_response_5g P s rand autn_enb serving_network_name
        abba abba_len res_star k_amf).2.res_star =
      P.security_generate_res_star (selected_f2345 P s rand).ck (selected_f2345 P s rand).ik
        serving_network_name rand (view (selected_f2345 P s rand).res 8) 8 ∧
    (generate_authentication_response_5g P s rand autn_enb serving_network_name
        abba abba_len res_star k_amf).2.k_ausf =
      P.security_generate_k_ausf (selected_f2345 P s rand).ck (selected_f2345 P s rand).ik
        (legacy_verifier P s rand autn_enb (zeros 16) (zeros 6)).2.ak_xor_sqn
        serving_network_name ∧
    (generate_authentication_response_5g P s rand autn_enb serving_network_name
        abba abba_len res_star k_amf).2.k_seaf =
      P.security_generate_k_seaf
        (generate_authentication_response_5g P s rand autn_enb serving_network_name
          abba abba_len res_star k_amf).2.k_ausf serving_network_name ∧
    (generate_authentication_response_5g P s rand autn_enb serving_network_name
        abba abba_len res_star k_amf).2.k_amf =
      P.security_generate_k_amf
        (generate_authentication_response_5g P s rand autn_enb serving_network_name
          abba abba_len res_star k_amf).2.k_seaf s.imsi_str (view abba abba_len) abba_len := by
  have hv : (legacy_verifier P s rand autn_enb (zeros 16) (zeros 6)).2.result = AUTH_OK := by
    rw [generate_authentication_response_5g_result] at hok
    exact hok
  rw [generate_authentication_response_5g_ok P s rand autn_enb serving_network_name abba
    abba_len res_star k_amf hv]
  simp only []
  obtain ⟨hck, hik⟩ := legacy_verifier_keys P s rand autn_enb (zeros 16) (zeros 6) hs hP
  obtain ⟨hlen, hr⟩ := legacy_verifier_res P s rand autn_enb (zeros 16) (zeros 6) hP
    (by rw [length_zeros]; omega)
  rw [hck, hik, hlen, hr, legacy_verifier_imsi_str]
  obtain ⟨-, -, -, -, -, -, -, -, -, h10, h11, h12, h13⟩ := hP
  refine ⟨store_full _ _ _ hrs (h10 _ _ _ _ _ _), store_full _ _ _ (length_zeros 32) (h11 _ _ _ _),
    store_full _ _ _ (length_zeros 32) (h12 _ _), store_full _ _ _ hka (h13 _ _ _ _)⟩

theorem key_chain_5g_postcondition_witness :
    sampleUsim.WF ∧ samplePrimitives.WF ∧ (zeros 16).length = 16 ∧ (zeros 32).length = 32 ∧
    (generate_authentication_response_5g samplePrimitives sampleUsim sampleRand sampleAutn
        sampleSnn [0, 0] 2 (zeros 16) (zeros 32)).2.result = AUTH_OK ∧
    (generate_authentication_response_5g samplePrimitives sampleUsim sampleRand sampleAutn
        sampleSnn [0, 0] 2 (zeros 16) (zeros 32)).2.k_seaf =
      samplePrimitives.security_generate_k_seaf
        (generate_authentication_response_5g samplePrimitives sampleUsim sampleRand sampleAutn
          sampleSnn [0, 0] 2 (zeros 16) (zeros 32)).2.k_ausf sampleSnn :=
  ⟨by decide, samplePrimitives_WF, by decide, by decide, by decide,
   (key_chain_5g_postcondition samplePrimitives sampleUsim sampleRand sampleAutn
      sampleSnn [0, 0] 2 (zeros 16) (zeros 32) (by decide) samplePrimitives_WF (by decide)
      (by decide) (by decide)).2.2.1⟩

theorem gen_auth_res_milenage_new_xsnmac (P : Primitives) (s : usim)
    (rand autn_enb snmac res : Bytes) (snn : String) (output : Bytes) (hs : s.WF) :
    (gen_auth_res_milenage_new P s rand autn_enb snmac res snn output).1.xsnmac =
      slice output 24 8 := by
  obtain ⟨-, -, -, -, -, -, -, -, -, -, -, hx, -⟩ := hs
  simp only [gen_auth_res_milenage_new]
  rw [forLoop_wr0_eq_map 8 _ _ hx]
  apply map_range_congr
  intro i _
  rw [Nat.add_comm]

theorem gen_auth_res_milenage_new_ok_iff (P : Primitives) (s : usim)
    (rand autn_enb snmac res : Bytes) (snn : String) (output : Bytes) (hs : s.WF) :
    (gen_auth_res_milenage_new P s rand autn_enb snmac res snn output).2.result = AUTH_OK ↔
      token_check_new P s rand autn_enb ∧
      snmac_check snmac
        (gen_auth_res_milenage_new P s rand autn_enb snmac res snn output).1.xsnmac := by
  rw [gen_auth_res_milenage_new_xsnmac P s rand autn_enb snmac res snn output hs]
  obtain ⟨-, -, -, -, -, -, hakn, -, hmac, -, hautn, hx, -⟩ := hs
  simp only [gen_auth_res_milenage_new, AK_LEN_NEW] at hakn ⊢
  rw [forLoop_cmp, forLoop_cmp]
  unfold token_check_new snmac_check
  have e1 : ∀ i, i < 8 →
      rd (forLoop 8 (fun i a => wr a i
            (rd (store s.mac (P.security_milenage_f1_new s.k s.opc rand) 8) i ^^^
              rd (store (store s.ak_new (P.security_milenage_f2345_new s.k s.opc rand).ak 8)
                (P.security_milenage_f1_star_new s.k s.opc rand) 8) i)) s.autn_new) i =
        rd (P.security_milenage_f1_new s.k s.opc rand) i ^^^
          rd (P.security_milenage_f1_star_new s.k s.opc rand) i := by
    intro i hi
    rw [rd_forLoop_wr0, if_pos ⟨hi, by omega⟩, rd_store, if_pos ⟨hi, by omega⟩, rd_store,
      if_pos ⟨hi, by rw [length_store]; omega⟩]
  have e2 : ∀ i, i < 8 →
      rd (forLoop 8 (fun i xsnmac => wr xsnmac i (rd output (i + 24))) s.xsnmac) i =
        rd (slice output 24 8) i := by
    intro i hi
    rw [rd_forLoop_wr0, if_pos ⟨hi, by omega⟩, rd_slice _ _ _ _ hi, Nat.add_comm]
  constructor
  · rintro ⟨⟨-, h1⟩, h2⟩
    exact ⟨fun i hi => by rw [← h1 i hi, e1 i hi], fun i hi => by rw [← h2 i hi, e2 i hi]⟩
  · rintro ⟨h1, h2⟩
    exact ⟨⟨rfl, fun i hi => by rw [e1 i hi, h1 i hi]⟩, fun i hi => by rw [e2 i hi, h2 i hi]⟩

/-- C7 (the code at a failing input): the acceptance test of
`gen_auth_res_milenage_new` is not the conjunction of the two checks.  For the
serving-network name "5G:mnc093.mcc208.3gppnetwork.org" and with the unwritten
array `output` holding zeros: (a) the token equals MAC XOR AK_alt and (b) the
serving-network MAC equals bytes [24,32) of the digest of n || MAC || name,
yet the result is AUTH_FAILED; and the all-zero serving-network MAC, for which
(b) fails, is accepted.  Nor can check (b) be falsified on its own: with
`output` holding 01..20 (hex) the serving-network MAC 19 1a 1b 1c 1d 1e 1f 20
is accepted, and the MAC changed in its last byte alone is accepted as well
when the run finds 0 in `output[31]`. -/
theorem reauth_acceptance_not_by_digest :
    token_check_new samplePrimitives sampleUsim sampleRand sampleAutnNew ∧
    snmac_check [179, 174, 171, 202, 21, 206, 165, 142]
      (slice (gen_auth_res_milenage_new samplePrimitives sampleUsim sampleRand sampleAutnNew
        [179, 174, 171, 202, 21, 206, 165, 142] (zeros 16)
        "5G:mnc093.mcc208.3gppnetwork.org" (zeros 32)).2.out 24 8) ∧
    (gen_auth_res_milenage_new samplePrimitives sampleUsim sampleRand sampleAutnNew
        [179, 174, 171, 202, 21, 206, 165, 142] (zeros 16)
        "5G:mnc093.mcc208.3gppnetwork.org" (zeros 32)).2.result = AUTH_FAILED ∧
    ¬ snmac_check (zeros 8)
      (slice (gen_auth_res_milenage_new samplePrimitives sampleUsim sampleRand sampleAutnNew
        (zeros 8) (zeros 16) "5G:mnc093.mcc208.3gppnetwork.org" (zeros 32)).2.out 24 8) ∧
    (gen_auth_res_milenage_new samplePrimitives sampleUsim sampleRand sampleAutnNew
        (zeros 8) (zeros 16) "5G:mnc093.mcc208.3gppnetwork.org" (zeros 32)).2.result
      = AUTH_OK ∧
    (gen_auth_res_milenage_new samplePrimitives sampleUsim sampleRand sampleAutnNew
        [25, 26, 27, 28, 29, 30, 31, 32] (zeros 16) "5G:mnc093.mcc208.3gppnetwork.org"
        sampleOutput).2.result = AUTH_OK ∧
    (gen_auth_res_milenage_new samplePrimitives sampleUsim sampleRand sampleAutnNew
        [25, 26, 27, 28, 29, 30, 31, 0] (zeros 16) "5G:mnc093.mcc208.3gppnetwork.org"
        (wr sampleOutput 31 0)).2.result = AUTH_OK := by
  decide

/-- C8 (the code at a failing input): the digest of the 56-byte input is
written to the vector `out`, but `xsnmac` is filled from the array `output`,
which is never written.  With `output` holding zeros, the serving-network MAC
taken from bytes [24,32) of the digest is rejected although the token check
holds, and the all-zero serving-network MAC is accepted. -/
theorem xsnmac_read_from_unwritten_array :
    (gen_auth_res_milenage_new samplePrimitives sampleUsim sampleRand sampleAutnNew
        (zeros 8) (zeros 16) sampleSnn (zeros 32)).2.out =
      samplePrimitives.sha256_hash
        (gen_auth_res_milenage_new samplePrimitives sampleUsim sampleRand sampleAutnNew
          (zeros 8) (zeros 16) sampleSnn (zeros 32)).2.input ∧
    slice (gen_auth_res_milenage_new samplePrimitives sampleUsim sampleRand sampleAutnNew
        (zeros 8) (zeros 16) sampleSnn (zeros 32)).2.out 24 8 =
      [179, 174, 171, 202, 21, 206, 165, 142] ∧
    (gen_auth_res_milenage_new samplePrimitives sampleUsim sampleRand sampleAutnNew
        (zeros 8) (zeros 16) sampleSnn (zeros 32)).1.xsnmac = zeros 8 ∧
    token_check_new samplePrimitives sampleUsim sampleRand sampleAutnNew ∧
    (gen_auth_res_milenage_new samplePrimitives sampleUsim sampleRand sampleAutnNew
        [179, 174, 171, 202, 21, 206, 165, 142] (zeros 16) sampleSnn (zeros 32)).2.result
      = AUTH_FAILED ∧
    (gen_auth_res_milenage_new samplePrimitives sampleUsim sampleRand sampleAutnNew
        (zeros 8) (zeros 16) sampleSnn (zeros 32)).2.result = AUTH_OK := by
  decide

/-- C9 (the code at a failing input): the hash input is n || mac || snName
with `snName` the fixed array of usim.cc:349-354, the bytes of
"5G:mnc093.mcc208.3gppnetwork.org".  For the serving-network name
"5G:mnc070.mcc901.3gppnetwork.org" the bytes [24,56) of the hash input are not
the bytes of that name, and the hash input is the same as for any other
name. -/
theorem hash_input_ignores_serving_network_name :
    (gen_auth_res_milenage_new samplePrimitives sampleUsim sampleRand sampleAutnNew
        (zeros 8) (zeros 16) "5G:mnc070.mcc901.3gppnetwork.org" (zeros 32)).2.input =
      sampleUsim.n ++ samplePrimitives.security_milenage_f1_new sampleUsim.k sampleUsim.opc
        sampleRand ++ snName ∧
    snName = nameBytes "5G:mnc093.mcc208.3gppnetwork.org" ∧
    slice (gen_auth_res_milenage_new samplePrimitives sampleUsim sampleRand sampleAutnNew
        (zeros 8) (zeros 16) "5G:mnc070.mcc901.3gppnetwork.org" (zeros 32)).2.input 24 32 ≠
      nameBytes "5G:mnc070.mcc901.3gppnetwork.org" ∧
    (gen_auth_res_milenage_new samplePrimitives sampleUsim sampleRand sampleAutnNew
        (zeros 8) (zeros 16) "5G:mnc070.mcc901.3gppnetwork.org" (zeros 32)).2.input =
      (gen_auth_res_milenage_new samplePrimitives sampleUsim sampleRand sampleAutnNew
        (zeros 8) (zeros 16) "5G:mnc001.mcc001.3gppnetwork.org" (zeros 32)).2.input := by
  decide

theorem gen_auth_res_milenage_new_keys (P : Primitives) (s : usim)
    (rand autn_enb snmac res : Bytes) (snn : String) (output : Bytes)
    (hs : s.WF) (hP : P.WF) :
    (gen_auth_res_milenage_new P s rand autn_enb snmac res snn output).1.ck =
        (P.security_milenage_f2345_new s.k s.opc rand).ck ∧
    (gen_auth_res_milenage_new P s rand autn_enb snmac res snn output).1.ik =
        (P.security_milenage_f2345_new s.k s.opc rand).ik ∧
    (gen_auth_res_milenage_new P s rand autn_enb snmac res snn output).1.imsi_str =
        s.imsi_str := by
  obtain ⟨-, -, -, hck, hik, -⟩ := hs
  obtain ⟨-, -, -, -, h1, -⟩ := hP
  obtain ⟨-, h2, h3, -⟩ := h1 s.k s.opc rand
  simp only [gen_auth_res_milenage_new]
  exact ⟨store_full _ _ _ hck h2, store_full _ _ _ hik h3, trivial⟩

theorem gen_auth_res_milenage_new_res (P : Primitives) (s : usim)
    (rand autn_enb snmac res : Bytes) (snn : String) (output : Bytes)
    (hP : P.WF) (hres : 8 ≤ res.length) :
    (gen_auth_res_milenage_new P s rand autn_enb snmac res snn output).2.res_len = 8 ∧
    view (gen_auth_res_milenage_new P s rand autn_enb snmac res snn output).2.res 8 =
      view (P.security_milenage_f2345_new s.k s.opc rand).res 8 := by
  obtain ⟨-, -, -, -, h1, -⟩ := hP
  rw [view_eq_slice (P.security_milenage_f2345_new s.k s.opc rand).res 8
    (by rw [(h1 s.k s.opc rand).1])]
  simp only [gen_auth_res_milenage_new]
  exact ⟨trivial, view_store _ _ _ hres⟩

theorem memcpy_zeros_eq_slice (src : Bytes) (n : Nat) :
    memcpy (zeros n) 0 src n = slice src 0 n := by
  apply ext_rd
  · rw [length_memcpy, length_zeros, length_slice]
  · intro i hi
    rw [length_memcpy, length_zeros] at hi
    rw [rd_memcpy, if_pos ⟨Nat.zero_le i, by omega, by rw [length_zeros]; exact hi⟩,
      rd_slice _ _ _ _ hi, Nat.zero_add, Nat.sub_zero]

theorem generate_authentication_response_5g_new_result (P : Primitives) (s : usim)
    (rand autn_enb snmac : Bytes) (snn : String) (abba : Bytes) (abba_len : Nat)
    (res_star k_amf output : Bytes) :
    (generate_authentication_response_5g_new P s rand autn_enb snmac snn abba abba_len
        res_star k_amf output).2.result =
      if auth_algo_xor = s.auth_algo then AUTH_FAILED
      else (gen_auth_res_milenage_new P s rand autn_enb snmac (zeros 16) snn output).2.result := by
  unfold generate_authentication_response_5g_new
  simp only []
  by_cases hx : auth_algo_xor = s.auth_algo
  · simp only [if_pos hx, if_neg failed_ne_ok]
  · simp only [if_neg hx]
    split_ifs <;> simp only []

theorem generate_authentication_response_5g_new_ok (P : Primitives) (s : usim)
    (rand autn_enb snmac : Bytes) (snn : String) (abba : Bytes) (abba_len : Nat)
    (res_star k_amf output : Bytes) (hx : ¬ auth_algo_xor = s.auth_algo)
    (hv : (gen_auth_res_milenage_new P s rand autn_enb snmac (zeros 16) snn output).2.result
      = AUTH_OK) :
    (generate_authentication_response_5g_new P s rand autn_enb snmac snn abba abba_len
        res_star k_amf output).2 =
      { result := AUTH_OK,
        res_star := store res_star (P.security_generate_res_star
          (gen_auth_res_milenage_new P s rand autn_enb snmac (zeros 16) snn output).1.ck
          (gen_auth_res_milenage_new P s rand autn_enb snmac (zeros 16) snn output).1.ik snn rand
          (view (gen_auth_res_milenage_new P s rand autn_enb snmac (zeros 16) snn output).2.res
            (gen_auth_res_milenage_new P s rand autn_enb snmac (zeros 16) snn output).2.res_len)
          (gen_auth_res_milenage_new P s rand autn_enb snmac (zeros 16) snn output).2.res_len) 16,
        k_amf := store k_amf (P.security_generate_k_amf
          (store (zeros 32) (P.security_generate_k_seaf
            (store (zeros 32) (P.security_generate_k_ausf
              (gen_auth_res_milenage_new P s rand autn_enb snmac (zeros 16) snn output).1.ck
              (gen_auth_res_milenage_new P s rand autn_enb snmac (zeros 16) snn output).1.ik
              (memcpy (zeros 6) 0 autn_enb 6) snn) 32)
            snn) 32)
          (gen_auth_res_milenage_new P s rand autn_enb snmac (zeros 16) snn output).1.imsi_str
          (view abba abba_len) abba_len) 32,
        k_ausf := store (zeros 32) (P.security_generate_k_ausf
          (gen_auth_res_milenage_new P s rand autn_enb snmac (zeros 16) snn output).1.ck
          (gen_auth_res_milenage_new P s rand autn_enb snmac (zeros 16) snn output).1.ik
          (memcpy (zeros 6) 0 autn_enb 6) snn) 32,
        k_seaf := store (zeros 32) (P.security_generate_k_seaf
          (store (zeros 32) (P.security_generate_k_ausf
            (gen_auth_res_milenage_new P s rand autn_enb snmac (zeros 16) snn output).1.ck
            (gen_auth_res_milenage_new P s rand autn_enb snmac (zeros 16) snn output).1.ik
            (memcpy (zeros 6) 0 autn_enb 6) snn) 32)
          snn) 32,
        calls := (gen_auth_res_milenage_new P s rand autn_enb snmac (zeros 16) snn output).2.calls
          ++ [Call.security_generate_res_star, Call.security_generate_k_ausf,
              Call.security_generate_k_seaf, Call.security_generate_k_amf] } := by
  unfold generate_authentication_response_5g_new
  simp only []
  simp only [if_neg hx]
  rw [if_pos hv]
  simp only [hv]

/-- C10: re-authentication key chain.  Whenever
`generate_authentication_response_5g_new` returns AUTH_OK, res_star and k_amf
are derived as in the 5G-AKA path (RES* from CK, IK, serving-network-name,
rand, RES with length 8; K_SEAF from K_AUSF and serving-network-name; K_AMF
from K_SEAF, IMSI string and abba), except that
K_AUSF = security_generate_k_ausf(CK, IK, autn_enb[0..6), serving_network_name):
the first 6 bytes of the network token take the place of AK xor SQN.  CK, IK
and RES are the outputs of f2345_new for this challenge. -/
theorem reauth_key_chain_postcondition (P : Primitives) (s : usim)
    (rand autn_enb snmac : Bytes) (serving_network_name : String)
    (abba : Bytes) (abba_len : Nat) (res_star k_amf output : Bytes)
    (hs : s.WF) (hP : P.WF) (hrs : res_star.length = 16) (hka : k_amf.length = 32)
    (hok : (generate_authentication_response_5g_new P s rand autn_enb snmac
      serving_network_name abba abba_len res_star k_amf output).2.result = AUTH_OK) :
    (generate_authentication_response_5g_new P s rand autn_enb snmac serving_network_name
        abba abba_len res_star k_amf output).2.res_star =
      P.security_generate_res_star (P.security_milenage_f2345_new s.k s.opc rand).ck
        (P.security_milenage_f2345_new s.k s.opc rand).ik serving_network_name rand
        (view (P.security_milenage_f2345_new s.k s.opc rand).res 8) 8 ∧
    (generate_authentication_response_5g_new P s rand autn_enb snmac serving_network_name
        abba abba_len res_star k_amf output).2.k_ausf =
      P.security_generate_k_ausf (P.security_milenage_f2345_new s.k s.opc rand).ck
        (P.security_milenage_f2345_new s.k s.opc rand).ik (slice autn_enb 0 6)
        serving_network_name ∧
    (generate_authentication_response_5g_new P s rand autn_enb snmac serving_network_name
        abba abba_len res_star k_amf output).2.k_seaf =
      P.security_generate_k_seaf
        (generate_authentication_response_5g_new P s rand autn_enb snmac serving_network_name
          abba abba_len res_star k_amf output).2.k_ausf serving_network_name ∧
    (generate_authentication_response_5g_new P s rand autn_enb snmac serving_network_name
        abba abba_len res_star k_amf output).2.k_amf =
      P.security_generate_k_amf
        (generate_authentication_response_5g_new P s rand autn_enb snmac serving_network_name
          abba abba_len res_star k_amf output).2.k_seaf s.imsi_str
        (view abba abba_len) abba_len := by
  rw [generate_authentication_response_5g_new_result] at hok
  by_cases hx : auth_algo_xor = s.auth_algo
  · rw [if_pos hx] at hok
    cases hok
  · rw [if_neg hx] at hok
    rw [generate_authentication_response_5g_new_ok P s rand autn_enb snmac
      serving_network_name abba abba_len res_star k_amf output hx hok]
    simp only []
    obtain ⟨hck, hik, himsi⟩ := gen_auth_res_milenage_new_keys P s rand autn_enb snmac
      (zeros 16) serving_network_name output hs hP
    obtain ⟨hlen, hr⟩ := gen_auth_res_milenage_new_res P s rand autn_enb snmac (zeros 16)
      serving_network_name output hP (by rw [length_zeros]; omega)
    rw [hck, hik, hlen, hr, himsi, memcpy_zeros_eq_slice]
    obtain ⟨-, -, -, -, -, -, -, -, -, h10, h11, h12, h13⟩ := hP
    refine ⟨store_full _ _ _ hrs (h10 _ _ _ _ _ _),
      store_full _ _ _ (length_zeros 32) (h11 _ _ _ _),
      store_full _ _ _ (length_zeros 32) (h12 _ _), store_full _ _ _ hka (h13 _ _ _ _)⟩

theorem reauth_key_chain_postcondition_witness :
    sampleUsim.WF ∧ samplePrimitives.WF ∧ (zeros 16).length = 16 ∧ (zeros 32).length = 32 ∧
    (generate_authentication_response_5g_new samplePrimitives sampleUsim sampleRand
        sampleAutnNew [25, 26, 27, 28, 29, 30, 31, 32] sampleSnn [0, 0] 2 (zeros 16) (zeros 32)
        sampleOutput).2.result = AUTH_OK ∧
    (generate_authentication_response_5g_new samplePrimitives sampleUsim sampleRand
        sampleAutnNew [25, 26, 27, 28, 29, 30, 31, 32] sampleSnn [0, 0] 2 (zeros 16) (zeros 32)
        sampleOutput).2.k_ausf =
      samplePrimitives.security_generate_k_ausf
        (samplePrimitives.security_milenage_f2345_new sampleUsim.k sampleUsim.opc sampleRand).ck
        (samplePrimitives.security_milenage_f2345_new sampleUsim.k sampleUsim.opc sampleRand).ik
        (slice sampleAutnNew 0 6) sampleSnn :=
  ⟨by decide, samplePrimitives_WF, by decide, by decide, by decide,
   (reauth_key_chain_postcondition samplePrimitives sampleUsim sampleRand sampleAutnNew
      [25, 26, 27, 28, 29, 30, 31, 32] sampleSnn [0, 0] 2 (zeros 16) (zeros 32) sampleOutput
      (by decide) samplePrimitives_WF (by decide) (by decide) (by decide)).2.1⟩

/-- C11: when the algorithm family is the XOR test family,
`generate_authentication_response_5g_new` returns AUTH_FAILED for every
challenge, token, serving-network MAC and serving-network name; it calls no
external routine (no transform, no key derivation), hands `res_star` and
`k_amf` back as they were, and leaves the module unchanged. -/
theorem xor_reauth_unsupported (P : Primitives) (s : usim)
    (rand autn_enb snmac : Bytes) (serving_network_name : String)
    (abba : Bytes) (abba_len : Nat) (res_star k_amf output : Bytes)
    (hx : s.auth_algo = auth_algo_xor) :
    (generate_authentication_response_5g_new P s rand autn_enb snmac serving_network_name
        abba abba_len res_star k_amf output).2.result = AUTH_FAILED ∧
    (generate_authentication_response_5g_new P s rand autn_enb snmac serving_network_name
        abba abba_len res_star k_amf output).2.calls = [] ∧
    (generate_authentication_response_5g_new P s rand autn_enb snmac serving_network_name
        abba abba_len res_star k_amf output).2.res_star = res_star ∧
    (generate_authentication_response_5g_new P s rand autn_enb snmac serving_network_name
        abba abba_len res_star k_amf output).2.k_amf = k_amf ∧
    (generate_authentication_response_5g_new P s rand autn_enb snmac serving_network_name
        abba abba_len res_star k_amf output).1 = s := by
  unfold generate_authentication_response_5g_new
  simp only [if_pos hx.symm, if_neg failed_ne_ok, and_self]

theorem xor_reauth_unsupported_witness :
    sampleUsimXor.auth_algo = auth_algo_xor ∧
    (generate_authentication_response_5g_new samplePrimitives sampleUsimXor sampleRand
        sampleAutnNew [25, 26, 27, 28, 29, 30, 31, 32] sampleSnn [0, 0] 2 (zeros 16) (zeros 32)
        sampleOutput).2.result = AUTH_FAILED :=
  ⟨by decide,
   (xor_reauth_unsupported samplePrimitives sampleUsimXor sampleRand sampleAutnNew
      [25, 26, 27, 28, 29, 30, 31, 32] sampleSnn [0, 0] 2 (zeros 16) (zeros 32) sampleOutput
      (by decide)).1⟩

theorem gen_auth_res_milenage_unwritten (P : Primitives) (s : usim)
    (rand autn_enb res akx : Bytes) :
    s.unwritten_eq (gen_auth_res_milenage P s rand autn_enb res akx).1 := by
  simp only [usim.unwritten_eq, gen_auth_res_milenage, and_self]

theorem gen_auth_res_xor_unwritten (P : Primitives) (s : usim)
    (rand autn_enb res akx : Bytes) :
    s.unwritten_eq (gen_auth_res_xor P s rand autn_enb res akx).1 := by
  simp only [usim.unwritten_eq, gen_auth_res_xor, and_self]

theorem gen_auth_res_milenage_new_unwritten (P : Primitives) (s : usim)
    (rand autn_enb snmac res : Bytes) (snn : String) (output : Bytes) :
    s.unwritten_eq (gen_auth_res_milenage_new P s rand autn_enb snmac res snn output).1 := by
  simp only [usim.unwritten_eq, gen_auth_res_milenage_new, and_self]

theorem unwritten_eq_refl (s : usim) : s.unwritten_eq s := by
  simp only [usim.unwritten_eq, and_self]

theorem legacy_verifier_unwritten (P : Primitives) (s : usim)
    (rand autn_enb res akx : Bytes) :
    s.unwritten_eq (legacy_verifier P s rand autn_enb res akx).1 := by
  unfold legacy_verifier
  split_ifs
  · exact gen_auth_res_xor_unwritten P s rand autn_enb res akx
  · exact gen_auth_res_milenage_unwritten P s rand autn_enb res akx

theorem generate_authentication_response_state (P : Primitives) (s : usim)
    (rand autn_enb : Bytes) (mcc mnc : Nat) (res k_asme_ : Bytes) :
    (generate_authentication_response P s rand autn_enb mcc mnc res k_asme_).1 =
      (legacy_verifier P s rand autn_enb res (zeros 6)).1 := by
  rw [generate_authentication_response_unfold]
  split_ifs <;> rfl

theorem generate_authentication_response_5g_state (P : Primitives) (s : usim)
    (rand autn_enb : Bytes) (snn : String) (abba : Bytes) (abba_len : Nat)
    (res_star k_amf : Bytes) :
    (generate_authentication_response_5g P s rand autn_enb snn abba abba_len
        res_star k_amf).1 =
      (legacy_verifier P s rand autn_enb (zeros 16) (zeros 6)).1 := by
  unfold generate_authentication_response_5g legacy_verifier
  simp only []
  split_ifs <;> simp only []

theorem generate_authentication_response_5g_new_state (P : Primitives) (s : usim)
    (rand autn_enb snmac : Bytes) (snn : String) (abba : Bytes) (abba_len : Nat)
    (res_star k_amf output : Bytes) :
    (generate_authentication_response_5g_new P s rand autn_enb snmac snn abba abba_len
        res_star k_amf output).1 =
      if auth_algo_xor = s.auth_algo then s
      else (gen_auth_res_milenage_new P s rand autn_enb snmac (zeros 16) snn output).1 := by
  unfold generate_authentication_response_5g_new
  simp only []
  by_cases hx : auth_algo_xor = s.auth_algo
  · simp only [if_pos hx, if_neg failed_ne_ok]
  · simp only [if_neg hx]
    split_ifs <;> simp only []

theorem entry_4g_n (P : Primitives) (s : usim)
    (rand autn_enb : Bytes) (mcc mnc : Nat) (res k_asme_ : Bytes) :
    (generate_authentication_response P s rand autn_enb mcc mnc res k_asme_).1.n = s.n := by
  rw [generate_authentication_response_state]
  exact (legacy_verifier_unwritten P s rand autn_enb res (zeros 6)).2.2.2.2.2.2.2.2.2

theorem entry_5g_n (P : Primitives) (s : usim)
    (rand autn_enb : Bytes) (snn : String) (abba : Bytes) (abba_len : Nat)
    (res_star k_amf : Bytes) :
    (generate_authentication_response_5g P s rand autn_enb snn abba abba_len
        res_star k_amf).1.n = s.n := by
  rw [generate_authentication_response_5g_state]
  exact (legacy_verifier_unwritten P s rand autn_enb (zeros 16) (zeros 6)).2.2.2.2.2.2.2.2.2

theorem entry_5g_new_n (P : Primitives) (s : usim)
    (rand autn_enb snmac : Bytes) (snn : String) (abba : Bytes) (abba_len : Nat)
    (res_star k_amf output : Bytes) :
    (generate_authentication_response_5g_new P s rand autn_enb snmac snn abba abba_len
        res_star k_amf output).1.n = s.n := by
  rw [generate_authentication_response_5g_new_state]
  split_ifs
  · rfl
  · exact (gen_auth_res_milenage_new_unwritten P s rand autn_enb snmac (zeros 16) snn
      output).2.2.2.2.2.2.2.2.2

/-- C13: credential immutability.  For every input, each of
`generate_authentication_response`, `generate_authentication_response_5g`,
`generate_authentication_response_5g_new`, `gen_auth_res_milenage`,
`gen_auth_res_xor` and `gen_auth_res_milenage_new` leaves the long-term secret
k, the operator constant opc (and op), the family tag auth_algo, the IMSI/IMEI
members, `initiated` and `n` unchanged: the only members written are the
scratch members ck, ik, ak, ak_new, amf, mac, autn, autn_new and xsnmac. -/
theorem credential_immutable (P : Primitives) (s : usim)
    (rand autn_enb snmac : Bytes) (mcc mnc : Nat) (serving_network_name : String)
    (abba : Bytes) (abba_len : Nat) (res ak_xor_sqn k_asme_ res_star k_amf output : Bytes) :
    s.unwritten_eq
      (generate_authentication_response P s rand autn_enb mcc mnc res k_asme_).1 ∧
    s.unwritten_eq
      (generate_authentication_response_5g P s rand autn_enb serving_network_name abba abba_len
        res_star k_amf).1 ∧
    s.unwritten_eq
      (generate_authentication_response_5g_new P s rand autn_enb snmac serving_network_name
        abba abba_len res_star k_amf output).1 ∧
    s.unwritten_eq (gen_auth_res_milenage P s rand autn_enb res ak_xor_sqn).1 ∧
    s.unwritten_eq (gen_auth_res_xor P s rand autn_enb res ak_xor_sqn).1 ∧
    s.unwritten_eq
      (gen_auth_res_milenage_new P s rand autn_enb snmac res serving_network_name output).1 := by
  refine ⟨?_, ?_, ?_, gen_auth_res_milenage_unwritten P s rand autn_enb res ak_xor_sqn,
    gen_auth_res_xor_unwritten P s rand autn_enb res ak_xor_sqn,
    gen_auth_res_milenage_new_unwritten P s rand autn_enb snmac res serving_network_name output⟩
  · rw [generate_authentication_response_state]
    exact legacy_verifier_unwritten P s rand autn_enb res (zeros 6)
  · rw [generate_authentication_response_5g_state]
    exact legacy_verifier_unwritten P s rand autn_enb (zeros 16) (zeros 6)
  · rw [generate_authentication_response_5g_new_state]
    split_ifs
    · exact unwritten_eq_refl s
    · exact gen_auth_res_milenage_new_unwritten P s rand autn_enb snmac (zeros 16)
        serving_network_name output

/-- C15: for every credential, challenge and network token, whatever the
result, the 6-byte `ak_xor_sqn` handed back by `gen_auth_res_milenage` and by
`gen_auth_res_xor` is the first 6 bytes of the network token: the anonymity
key cancels. -/
theorem ak_xor_sqn_is_token_head (P : Primitives) (s : usim)
    (rand autn_enb res ak_xor_sqn : Bytes) (h : ak_xor_sqn.length = 6) :
    (gen_auth_res_milenage P s rand autn_enb res ak_xor_sqn).2.ak_xor_sqn =
      slice autn_enb 0 6 ∧
    (gen_auth_res_xor P s rand autn_enb res ak_xor_sqn).2.ak_xor_sqn = slice autn_enb 0 6 :=
  ⟨gen_auth_res_milenage_ak_xor_sqn P s rand autn_enb res ak_xor_sqn h,
   gen_auth_res_xor_ak_xor_sqn P s rand autn_enb res ak_xor_sqn h⟩

theorem ak_xor_sqn_is_token_head_witness :
    (zeros 6).length = 6 ∧
    (gen_auth_res_milenage samplePrimitives sampleUsim sampleRand (zeros 16) (zeros 8)
        (zeros 6)).2.result = AUTH_FAILED ∧
    (gen_auth_res_milenage samplePrimitives sampleUsim sampleRand (zeros 16) (zeros 8)
        (zeros 6)).2.ak_xor_sqn = slice (zeros 16) 0 6 :=
  ⟨by decide, by decide,
   (ak_xor_sqn_is_token_head samplePrimitives sampleUsim sampleRand (zeros 16) (zeros 8)
      (zeros 6) (by decide)).1⟩

/-- C12 (claim as stated, refuted): with a K string of 2 characters `init`
reports the invalid length, leaves `k` as it was, and still returns
SRSRAN_SUCCESS with the module marked initiated. -/
theorem init_succeeds_on_short_key :
    ({ sampleArgs with k := "00" } : usim_args_t).k.length ≠ 32 ∧
    sampleFresh.initiated = false ∧
    (init sampleComputeOpc sampleFresh { sampleArgs with k := "00" }).2.ret = SRSRAN_SUCCESS ∧
    (init sampleComputeOpc sampleFresh { sampleArgs with k := "00" }).1.initiated = true ∧
    (init sampleComputeOpc sampleFresh { sampleArgs with k := "00" }).2.errors =
      [init_error.invalid_length_K] ∧
    (init sampleComputeOpc sampleFresh { sampleArgs with k := "00" }).1.k = sampleFresh.k := by
  decide

/-- C12 (amended): wrong-length credential material is reported but is not
fatal.  For every argument set `init` returns SRSRAN_SUCCESS and marks the
module initiated.  When the hex string for K is not exactly 32 characters
(likewise OP or OPc under the standard family, or IMSI/IMEI not 15
characters), `init` reports the invalid length of that item and leaves the
corresponding member (k; op and opc; opc; imsi; imei) as it was. -/
theorem init_reports_wrong_length (compute_opc : Bytes → Bytes → Bytes) (s : usim)
    (args : usim_args_t) :
    (init compute_opc s args).2.ret = SRSRAN_SUCCESS ∧
    (init compute_opc s args).1.initiated = true ∧
    (args.k.length ≠ 32 →
      init_error.invalid_length_K ∈ (init compute_opc s args).2.errors ∧
      (init compute_opc s args).1.k = s.k) ∧
    (args.algo ≠ "xor" → args.using_op = true → args.op.length ≠ 32 →
      init_error.invalid_length_OP ∈ (init compute_opc s args).2.errors ∧
      (init compute_opc s args).1.op = s.op ∧ (init compute_opc s args).1.opc = s.opc) ∧
    (args.algo ≠ "xor" → args.using_op = false → args.opc.length ≠ 32 →
      init_error.invalid_length_OPc ∈ (init compute_opc s args).2.errors ∧
      (init compute_opc s args).1.opc = s.opc) ∧
    (args.imsi.length ≠ 15 →
      init_error.invalid_length_IMSI ∈ (init compute_opc s args).2.errors ∧
      (init compute_opc s args).1.imsi = s.imsi) ∧
    (args.imei.length ≠ 15 →
      init_error.invalid_length_IMEI ∈ (init compute_opc s args).2.errors ∧
      (init compute_opc s args).1.imei = s.imei) := by
  refine ⟨rfl, rfl, ?_, ?_, ?_, ?_, ?_⟩
  · intro h
    have h1 : ¬ 32 = args.k.length := fun e => h e.symm
    constructor
    · simp only [init, if_neg h1]
      split_ifs <;> simp
    · simp only [init, if_neg h1]
  · intro ha hu h
    have h1 : ¬ 32 = args.op.length := fun e => h e.symm
    have h2 : ¬ "xor" = args.algo := fun e => ha e.symm
    refine ⟨?_, ?_, ?_⟩
    · simp only [init, if_neg h1, if_neg h2, hu, if_true]
      split_ifs <;> simp
    · simp only [init, if_neg h1, if_neg h2, hu, if_true]
    · simp only [init, if_neg h1, if_neg h2, hu, if_true]
  · intro ha hu h
    have h1 : ¬ 32 = args.opc.length := fun e => h e.symm
    have h2 : ¬ "xor" = args.algo := fun e => ha e.symm
    have h3 : ¬ (false = true) := by decide
    constructor
    · simp only [init, if_neg h1, if_neg h2, hu, if_true, if_neg h3]
      split_ifs <;> simp
    · simp only [init, if_neg h1, if_neg h2, hu, if_true, if_neg h3]
  · intro h
    have h1 : ¬ 15 = args.imsi.length := fun e => h e.symm
    constructor
    · simp only [init, if_neg h1]
      split_ifs <;> simp
    · simp only [init, if_neg h1]
  · intro h
    have h1 : ¬ 15 = args.imei.length := fun e => h e.symm
    constructor
    · simp only [init, if_neg h1]
      simp
    · simp only [init, if_neg h1]

theorem init_reports_wrong_length_witness :
    ({ sampleArgs with k := "00" } : usim_args_t).k.length ≠ 32 ∧
    init_error.invalid_length_K ∈
      (init sampleComputeOpc sampleFresh { sampleArgs with k := "00" }).2.errors :=
  ⟨by decide,
   ((init_reports_wrong_length sampleComputeOpc sampleFresh
      { sampleArgs with k := "00" }).2.2.1 (by decide)).1⟩

theorem init_n (compute_opc : Bytes → Bytes → Bytes) (s : usim) (args : usim_args_t) :
    (init compute_opc s args).1.n = s.n := by
  simp only [init]

theorem hash_input_head (P : Primitives) (s : usim)
    (rand autn_enb snmac res : Bytes) (snn : String) (output : Bytes) :
    slice (gen_auth_res_milenage_new P s rand autn_enb snmac res snn output).2.input 0 16 =
      slice s.n 0 16 := by
  simp only [gen_auth_res_milenage_new]
  apply map_range_congr
  intro i hi
  rw [Nat.zero_add, rd_memcpy, length_memcpy, length_memcpy, length_zeros,
    if_neg (by omega), rd_memcpy, length_memcpy, length_zeros, if_neg (by omega),
    rd_memcpy, length_zeros, if_pos ⟨by omega, by omega, by omega⟩, Nat.sub_zero]

theorem slice_zeros (n : Nat) : slice (zeros n) 0 n = zeros n :=
  slice_zero_full (zeros n) n (length_zeros n)

/-- C16: the context value `n` is all zero in every reachable state: it is
sixteen zero bytes in the constructed object and neither `init`, `stop` nor
any of the three authentication entry points (with their helpers) writes it;
hence the first 16 bytes of the re-authentication hash input are zero. -/
theorem context_value_always_zero (P : Primitives) (compute_opc : Bytes → Bytes → Bytes)
    (s : usim) (h : Reachable P compute_opc s) :
    s.n = zeros 16 ∧
    ∀ (rand autn_enb snmac res : Bytes) (serving_network_name : String) (output : Bytes),
      slice (gen_auth_res_milenage_new P s rand autn_enb snmac res serving_network_name
        output).2.input 0 16 = zeros 16 := by
  have hn : s.n = zeros 16 := by
    induction h with
    | constructed s hn => exact hn
    | init s args _ ih => rw [init_n]; exact ih
    | stop s _ ih => exact ih
    | auth_4g s rand autn_enb mcc mnc res k_asme_ _ ih =>
      rw [(entry_4g_n P s rand autn_enb mcc mnc res k_asme_)]
      exact ih
    | auth_5g s rand autn_enb snn abba abba_len res_star k_amf _ ih =>
      rw [(entry_5g_n P s rand autn_enb snn abba abba_len res_star k_amf)]
      exact ih
    | auth_5g_new s rand autn_enb snmac snn abba abba_len res_star k_amf output _ ih =>
      rw [(entry_5g_new_n P s rand autn_enb snmac snn abba abba_len res_star k_amf
        output)]
      exact ih
  refine ⟨hn, fun rand autn_enb snmac res snn output => ?_⟩
  rw [hash_input_head, hn, slice_zeros]

theorem context_value_always_zero_witness :
    Reachable samplePrimitives sampleComputeOpc
      (init sampleComputeOpc sampleFresh sampleArgs).1 ∧
    (init sampleComputeOpc sampleFresh sampleArgs).1.n = zeros 16 :=
  ⟨Reachable.init sampleFresh sampleArgs (Reachable.constructed sampleFresh (by decide)),
   (context_value_always_zero samplePrimitives sampleComputeOpc
      (init sampleComputeOpc sampleFresh sampleArgs).1
      (Reachable.init sampleFresh sampleArgs
        (Reachable.constructed sampleFresh (by decide)))).1⟩

theorem length_repr_digit : ∀ d, d < 10 → (toString d).length = 1 := by
  decide

theorem rd_lt_of_forall_mem (b : Bytes) (m : Nat) (hm : 0 < m) (h : ∀ x ∈ b, x < m)
    (i : Nat) : rd b i < m := by
  by_cases hi : i < b.length
  · rw [rd_eq_getElem b i hi]
    exact h _ (List.getElem_mem _)
  · rw [rd_of_le b i (Nat.le_of_not_lt hi)]
    exact hm

/-- C19: `get_mnc_str` returns the decimal rendering of the IMSI digits at
indices 3..5 exactly when the MCC string is one of "310", "311", "312", "313",
"316", and of the digits at indices 3..4 for every other MCC string; when the
digits read are single digits 0..9 the returned string has length 3 or 2
respectively. -/
theorem get_mnc_str_digits (imsi_vec : Bytes) (mcc_str : String) :
    ((mcc_str = "310" ∨ mcc_str = "311" ∨ mcc_str = "312" ∨ mcc_str = "313" ∨
        mcc_str = "316") →
      get_mnc_str imsi_vec mcc_str =
        toString (rd imsi_vec 3) ++ toString (rd imsi_vec 4) ++ toString (rd imsi_vec 5) ∧
      ((∀ x ∈ imsi_vec, x < 10) → (get_mnc_str imsi_vec mcc_str).length = 3)) ∧
    (¬ (mcc_str = "310" ∨ mcc_str = "311" ∨ mcc_str = "312" ∨ mcc_str = "313" ∨
        mcc_str = "316") →
      get_mnc_str imsi_vec mcc_str =
        toString (rd imsi_vec 3) ++ toString (rd imsi_vec 4) ∧
      ((∀ x ∈ imsi_vec, x < 10) → (get_mnc_str imsi_vec mcc_str).length = 2)) := by
  constructor
  · intro h
    have e : get_mnc_str imsi_vec mcc_str =
        toString (rd imsi_vec 3) ++ toString (rd imsi_vec 4) ++
          toString (rd imsi_vec 5) := by
      simp only [get_mnc_str, if_pos h, forRange, Nat.add_sub_cancel_left, forLoop,
        String.empty_append]
    refine ⟨e, fun hd => ?_⟩
    rw [e, String.length_append, String.length_append,
      length_repr_digit _ (rd_lt_of_forall_mem _ 10 (by decide) hd 3),
      length_repr_digit _ (rd_lt_of_forall_mem _ 10 (by decide) hd 4),
      length_repr_digit _ (rd_lt_of_forall_mem _ 10 (by decide) hd 5)]
  · intro h
    have e : get_mnc_str imsi_vec mcc_str =
        toString (rd imsi_vec 3) ++ toString (rd imsi_vec 4) := by
      simp only [get_mnc_str, if_neg h, forRange, Nat.add_sub_cancel_left, forLoop,
        String.empty_append]
    refine ⟨e, fun hd => ?_⟩
    rw [e, String.length_append,
      length_repr_digit _ (rd_lt_of_forall_mem _ 10 (by decide) hd 3),
      length_repr_digit _ (rd_lt_of_forall_mem _ 10 (by decide) hd 4)]

theorem get_mnc_str_digits_witness :
    ("310" = "310" ∨ "310" = "311" ∨ "310" = "312" ∨ "310" = "313" ∨ "310" = "316") ∧
    get_mnc_str [3, 1, 0, 4, 1, 0, 1, 2, 3, 4, 5, 6, 7, 8, 9] "310" =
      toString (rd [3, 1, 0, 4, 1, 0, 1, 2, 3, 4, 5, 6, 7, 8, 9] 3) ++
        toString (rd [3, 1, 0, 4, 1, 0, 1, 2, 3, 4, 5, 6, 7, 8, 9] 4) ++
        toString (rd [3, 1, 0, 4, 1, 0, 1, 2, 3, 4, 5, 6, 7, 8, 9] 5) :=
  ⟨by decide,
   ((get_mnc_str_digits [3, 1, 0, 4, 1, 0, 1, 2, 3, 4, 5, 6, 7, 8, 9] "310").1
      (by decide)).1⟩

theorem decimal_value_append_singleton (ds : List Nat) (x : Nat) :
    decimal_value (ds ++ [x]) = 10 * decimal_value ds + x := by
  induction ds with
  | nil => simp [decimal_value]
  | cons d ds ih =>
    show d * 10 ^ (ds ++ [x]).length + decimal_value (ds ++ [x]) =
      10 * (d * 10 ^ ds.length + decimal_value ds) + x
    rw [ih, List.length_append, List.length_singleton, Nat.pow_succ]
    ring

theorem dec_digit_code : ∀ c ∈ "0123456789".toList, 48 ≤ c.toNat ∧ c.toNat ≤ 57 := by
  decide

theorem c_str_length (str : String) : (c_str str).length = str.length := by
  unfold c_str
  rw [List.length_map]
  rfl

theorem c_str_digit (str : String) (h : ∀ c ∈ str.toList, is_dec_digit c) (i : Nat)
    (hi : i < str.length) : 48 ≤ rd (c_str str) i ∧ rd (c_str str) i ≤ 57 := by
  have hi2 : i < (c_str str).length := by rw [c_str_length]; exact hi
  rw [rd_eq_getElem _ _ hi2]
  have hm : (c_str str)[i] ∈ c_str str := List.getElem_mem _
  unfold c_str at hm
  obtain ⟨c, hc, e⟩ := List.mem_map.mp hm
  have := dec_digit_code c (h c hc)
  unfold c_str
  omega

/-- The accumulation loop of usim.cc:80-84 and 91-95 on `n ≤ 19` decimal
digits: no step wraps around 2^64. -/
theorem digit_loop (cs : List Nat) (n : Nat) (hn : n ≤ 19)
    (h : ∀ i, i < n → 48 ≤ rd cs i ∧ rd cs i ≤ 57) :
    forLoop n (fun i a => u64_add_int (a * 10 % 2 ^ 64) ((rd cs i : Int) - 48)) 0 =
        decimal_value ((List.range n).map (fun i => rd cs i - 48)) ∧
    decimal_value ((List.range n).map (fun i => rd cs i - 48)) < 10 ^ n := by
  induction n with
  | zero => simp [forLoop, decimal_value]
  | succ n ih =>
    obtain ⟨e, hlt⟩ := ih (by omega) (fun i hi => h i (by omega))
    obtain ⟨h1, h2⟩ := h n (by omega)
    have hpow : 10 ^ n ≤ 10 ^ 18 := Nat.pow_le_pow_right (by decide) (by omega)
    have hpow' : (10 : Nat) ^ 18 = 1000000000000000000 := by norm_num
    rw [List.range_succ, List.map_append, List.map_singleton, decimal_value_append_singleton]
    constructor
    · simp only [forLoop]
      rw [e]
      simp only [u64_add_int]
      generalize decimal_value ((List.range n).map (fun i => rd cs i - 48)) = v at hlt ⊢
      omega
    · rw [Nat.pow_succ]
      omega

theorem map_range_rd (l : Bytes) (f : Nat → Nat) :
    (List.range l.length).map (fun i => f (rd l i)) = l.map f := by
  apply List.ext_getElem
  · simp
  · intro i h1 h2
    have hi : i < l.length := by simpa using h2
    simp [rd_eq_getElem l i hi]

theorem digits_of_c_str (str : String) (n : Nat) (hlen : str.length = n) :
    (List.range n).map (fun i => rd (c_str str) i - 48) = str.toList.map dec_digit_value := by
  have h := map_range_rd (c_str str) (fun x => x - 48)
  rw [c_str_length, hlen] at h
  rw [h]
  unfold c_str
  rw [List.map_map]
  rfl

theorem digits_to_uint64 (str : String) (hlen : str.length = 15)
    (hdig : ∀ c ∈ str.toList, is_dec_digit c) :
    forLoop 15 (fun i a => u64_add_int (a * 10 % 2 ^ 64) ((rd (c_str str) i : Int) - 48)) 0 =
        decimal_value (str.toList.map dec_digit_value) ∧
    decimal_value (str.toList.map dec_digit_value) < 10 ^ 15 := by
  have h := digit_loop (c_str str) 15 (by decide)
    (fun i hi => c_str_digit str hdig i (by omega))
  rw [digits_of_c_str str 15 hlen] at h
  exact h

/-- C18: for every IMSI string of exactly 15 decimal digits, `init` stores in
the 64-bit member `imsi` the decimal value of the string, most significant
digit first; the value is below 10^15, so the 64-bit accumulation does not wrap
around.  Likewise for the IMEI string and the member `imei`. -/
theorem init_stores_decimal_value (compute_opc : Bytes → Bytes → Bytes) (s : usim)
    (args : usim_args_t) :
    (args.imsi.length = 15 → (∀ c ∈ args.imsi.toList, is_dec_digit c) →
      (init compute_opc s args).1.imsi = decimal_value (args.imsi.toList.map dec_digit_value) ∧
      (init compute_opc s args).1.imsi < 10 ^ 15) ∧
    (args.imei.length = 15 → (∀ c ∈ args.imei.toList, is_dec_digit c) →
      (init compute_opc s args).1.imei = decimal_value (args.imei.toList.map dec_digit_value) ∧
      (init compute_opc s args).1.imei < 10 ^ 15) := by
  constructor
  · intro hlen hdig
    obtain ⟨e, hlt⟩ := digits_to_uint64 args.imsi hlen hdig
    have h : (init compute_opc s args).1.imsi =
        decimal_value (args.imsi.toList.map dec_digit_value) := by
      simp only [init, if_pos hlen.symm]
      exact e
    exact ⟨h, by rw [h]; exact hlt⟩
  · intro hlen hdig
    obtain ⟨e, hlt⟩ := digits_to_uint64 args.imei hlen hdig
    have h : (init compute_opc s args).1.imei =
        decimal_value (args.imei.toList.map dec_digit_value) := by
      simp only [init, if_pos hlen.symm]
      exact e
    exact ⟨h, by rw [h]; exact hlt⟩

theorem init_stores_decimal_value_witness :
    sampleArgs.imsi.length = 15 ∧ (∀ c ∈ sampleArgs.imsi.toList, is_dec_digit c) ∧
    (init sampleComputeOpc sampleFresh sampleArgs).1.imsi =
      decimal_value (sampleArgs.imsi.toList.map dec_digit_value) ∧
    decimal_value (sampleArgs.imsi.toList.map dec_digit_value) = 1010123456789 :=
  ⟨by decide, by decide,
   ((init_stores_decimal_value sampleComputeOpc sampleFresh sampleArgs).1 (by decide)
      (by decide)).1, by decide⟩

theorem wr_of_le (b : Bytes) (i v : Nat) (h : b.length ≤ i) : wr b i v = b := by
  apply ext_rd
  · rw [length_wr]
  · intro j hj
    rw [length_wr] at hj
    rw [rd_wr, if_neg (by omega)]

theorem wr_wr_rd (hex : Bytes) (i a b : Nat) :
    wr (wr hex i a) i (rd (wr hex i a) i ||| b) = wr hex i (a ||| b) := by
  by_cases h : i < hex.length
  · rw [rd_wr, if_pos ⟨rfl, h⟩]
    unfold wr
    rw [List.set_set]
  · have hle : hex.length ≤ i := Nat.le_of_not_lt h
    rw [wr_of_le hex i a hle, wr_of_le hex i _ hle, wr_of_le hex i _ hle]

/-- What `str_to_hex` does, for any string: byte `i` of the buffer, for `i`
below half the (32-bit) length, becomes the OR of the two nibbles. -/
theorem str_to_hex_eq (str : String) (hex : Bytes) :
    str_to_hex str hex =
      forLoop (str.length % 2 ^ 32 / 2)
        (fun i d => wr d i (high_nibble (rd (c_str str) (i * 2 + 0)) |||
          low_nibble (rd (c_str str) (i * 2 + 1)))) hex := by
  unfold str_to_hex
  simp only []
  congr 1
  funext i d
  unfold high_nibble low_nibble
  split_ifs <;> exact wr_wr_rd _ _ _ _

theorem forLoop_congr {σ : Type} (n : Nat) (f g : Nat → σ → σ)
    (h : ∀ i, i < n → ∀ s, f i s = g i s) (s : σ) : forLoop n f s = forLoop n g s := by
  induction n with
  | zero => rfl
  | succ n ih =>
    simp only [forLoop]
    rw [ih (fun i hi => h i (by omega)), h n (by omega)]

theorem hex_digit_code : ∀ c ∈ "0123456789abcdefABCDEF".toList,
    high_nibble (c.toNat : Int) = 16 * hex_digit_value c ∧
    low_nibble (c.toNat : Int) = hex_digit_value c ∧ hex_digit_value c < 16 := by
  decide

theorem hex_digit_case : ∀ c ∈ "0123456789abcdefABCDEF".toList,
    is_hex_digit c.toUpper ∧ is_hex_digit c.toLower ∧
    hex_digit_value c.toUpper = hex_digit_value c ∧
    hex_digit_value c.toLower = hex_digit_value c := by
  decide

theorem lor_nibbles : ∀ a, a < 16 → ∀ b, b < 16 → (16 * a) ||| b = 16 * a + b := by
  decide

theorem rd_c_str (str : String) (j : Nat) : rd (c_str str) j = (char_at str j).toNat := by
  show (List.map Char.toNat str.toList).getD j (Char.toNat (Char.ofNat 0)) =
    Char.toNat (str.toList.getD j (Char.ofNat 0))
  exact List.getD_map _ _ Char.toNat

theorem char_at_mem (str : String) (j : Nat) (h : j < str.length) :
    char_at str j ∈ str.toList := by
  unfold char_at
  have hj : j < str.toList.length := h
  rw [List.getD_eq_getElem _ _ hj]
  exact List.getElem_mem _

theorem hex_pair_value (str : String) (hdig : ∀ c ∈ str.toList, is_hex_digit c) (i : Nat)
    (hi : 2 * i + 1 < str.length) :
    high_nibble (rd (c_str str) (i * 2 + 0)) ||| low_nibble (rd (c_str str) (i * 2 + 1)) =
      16 * hex_digit_value (char_at str (2 * i)) +
        hex_digit_value (char_at str (2 * i + 1)) := by
  rw [show i * 2 + 0 = 2 * i by omega, show i * 2 + 1 = 2 * i + 1 by omega, rd_c_str, rd_c_str]
  obtain ⟨h1, -, h2⟩ := hex_digit_code _ (hdig _ (char_at_mem str (2 * i) (by omega)))
  obtain ⟨-, h3, h4⟩ := hex_digit_code _ (hdig _ (char_at_mem str (2 * i + 1) hi))
  rw [h1, h3]
  exact lor_nibbles _ h2 _ h4

/-- On a string of `2 * n < 2^32` hexadecimal digits `str_to_hex` sets byte `i`,
`i < n`, to `16 * value(str[2i]) + value(str[2i+1])`. -/
theorem str_to_hex_of_hex_digits (str : String) (hex : Bytes) (n : Nat)
    (hlen : str.length = 2 * n) (h32 : str.length < 2 ^ 32)
    (hdig : ∀ c ∈ str.toList, is_hex_digit c) :
    str_to_hex str hex =
      forLoop n (fun i d => wr d i (16 * hex_digit_value (char_at str (2 * i)) +
        hex_digit_value (char_at str (2 * i + 1)))) hex := by
  rw [str_to_hex_eq, Nat.mod_eq_of_lt h32, hlen, Nat.mul_div_cancel_left n (by decide)]
  apply forLoop_congr
  intro i hi d
  rw [hex_pair_value str hdig i (by omega)]

theorem toList_map (f : Char → Char) (str : String) :
    (str.map f).toList = str.toList.map f := by
  rw [String.map_eq]
  rfl

theorem char_at_map (f : Char → Char) (str : String) (j : Nat) (hj : j < str.length) :
    char_at (str.map f) j = f (char_at str j) := by
  unfold char_at
  rw [toList_map]
  have h1 : j < str.toList.length := hj
  have h2 : j < (str.toList.map f).length := by rw [List.length_map]; exact h1
  rw [List.getD_eq_getElem _ _ h1, List.getD_eq_getElem _ _ h2, List.getElem_map]

theorem length_map_string (f : Char → Char) (str : String) : (str.map f).length = str.length := by
  show (str.map f).toList.length = str.toList.length
  rw [toList_map, List.length_map]

/-- C17 (amended): for every string of even length 2n, shorter than 2^32
characters, whose characters are all hexadecimal digits (0-9, a-f, A-F),
`str_to_hex` writes exactly the first n bytes of the buffer, with
hex[i] = 16 * value(str[2i]) + value(str[2i+1]) for every i < n; consequently
the result is the same for the upper-case and the lower-case spelling of the
string, and a 32-character key string fills a 16-byte buffer. -/
theorem str_to_hex_decodes (str : String) (hex : Bytes) (n : Nat)
    (hlen : str.length = 2 * n) (h32 : str.length < 2 ^ 32)
    (hdig : ∀ c ∈ str.toList, is_hex_digit c) (hbuf : n ≤ hex.length) :
    (str_to_hex str hex).length = hex.length ∧
    (∀ i, i < n → rd (str_to_hex str hex) i =
      16 * hex_digit_value (char_at str (2 * i)) + hex_digit_value (char_at str (2 * i + 1))) ∧
    (∀ j, n ≤ j → rd (str_to_hex str hex) j = rd hex j) ∧
    str_to_hex str.toUpper hex = str_to_hex str.toLower hex ∧
    (n = 16 → hex.length = 16 →
      str_to_hex str hex = (List.range 16).map (fun i =>
        16 * hex_digit_value (char_at str (2 * i)) +
          hex_digit_value (char_at str (2 * i + 1)))) := by
  have e := str_to_hex_of_hex_digits str hex n hlen h32 hdig
  refine ⟨?_, ?_, ?_, ?_, ?_⟩
  · rw [e, length_forLoop_wr0]
  · intro i hi
    rw [e, rd_forLoop_wr0, if_pos ⟨hi, by omega⟩]
  · intro j hj
    rw [e, rd_forLoop_wr0, if_neg (by omega)]
  · have hup : ∀ c ∈ str.toUpper.toList, is_hex_digit c := by
      intro c hc
      rw [show str.toUpper = str.map Char.toUpper from rfl, toList_map] at hc
      obtain ⟨c0, hc0, rfl⟩ := List.mem_map.mp hc
      exact (hex_digit_case c0 (hdig c0 hc0)).1
    have hlo : ∀ c ∈ str.toLower.toList, is_hex_digit c := by
      intro c hc
      rw [show str.toLower = str.map Char.toLower from rfl, toList_map] at hc
      obtain ⟨c0, hc0, rfl⟩ := List.mem_map.mp hc
      exact (hex_digit_case c0 (hdig c0 hc0)).2.1
    have lup : str.toUpper.length = str.length := length_map_string Char.toUpper str
    have llo : str.toLower.length = str.length := length_map_string Char.toLower str
    rw [str_to_hex_of_hex_digits str.toUpper hex n (by rw [lup]; exact hlen)
        (by rw [lup]; exact h32) hup,
      str_to_hex_of_hex_digits str.toLower hex n (by rw [llo]; exact hlen)
        (by rw [llo]; exact h32) hlo]
    apply forLoop_congr
    intro i hi d
    have c1 := hex_digit_case _ (hdig _ (char_at_mem str (2 * i) (by omega)))
    have c2 := hex_digit_case _ (hdig _ (char_at_mem str (2 * i + 1) (by omega)))
    rw [show str.toUpper = str.map Char.toUpper from rfl,
      show str.toLower = str.map Char.toLower from rfl,
      char_at_map _ _ _ (show 2 * i < str.length by omega),
      char_at_map _ _ _ (show 2 * i + 1 < str.length by omega),
      char_at_map _ _ _ (show 2 * i < str.length by omega),
      char_at_map _ _ _ (show 2 * i + 1 < str.length by omega),
      c1.2.2.1, c1.2.2.2, c2.2.2.1, c2.2.2.2]
  · intro hn hh
    rw [e, hn]
    exact forLoop_wr0_eq_map 16 _ hex hh

theorem str_to_hex_decodes_witness :
    sampleArgs.k.length = 2 * 16 ∧ sampleArgs.k.length < 2 ^ 32 ∧
    (∀ c ∈ sampleArgs.k.toList, is_hex_digit c) ∧ 16 ≤ (zeros 16).length ∧
    str_to_hex sampleArgs.k.toUpper (zeros 16) = str_to_hex sampleArgs.k.toLower (zeros 16) :=
  ⟨by decide, by decide, by decide, by decide,
   (str_to_hex_decodes sampleArgs.k (zeros 16) 16 (by decide) (by decide) (by decide)
      (by decide)).2.2.2.1⟩

theorem longHexString_length : longHexString.length = 2 ^ 32 := by
  show (List.replicate (2 ^ 32) '0').length = 2 ^ 32
  exact List.length_replicate _ _

theorem longHexString_char (j : Nat) (hj : j < 2 ^ 32) : char_at longHexString j = '0' := by
  show (List.replicate (2 ^ 32) '0').getD j (Char.ofNat 0) = '0'
  have h : j < (List.replicate (2 ^ 32) '0').length := by
    rw [List.length_replicate]; exact hj
  rw [List.getD_eq_getElem _ _ h]
  exact List.getElem_replicate _ _

/-- C17 (claim as stated, refuted): the length is held in a `uint32_t`
(usim.cc:484).  For the string of 2^32 characters '0', an even number of
hexadecimal digits, the loop bound `len / 2` is 0 and no byte is written:
byte 0 of the buffer keeps its value 1, while 16 * value('0') + value('0')
is 0. -/
theorem str_to_hex_long_string :
    longHexString.length = 2 * 2 ^ 31 ∧
    (∀ c ∈ longHexString.toList, is_hex_digit c) ∧
    rd (str_to_hex longHexString (List.replicate (2 ^ 31) 1)) 0 = 1 ∧
    16 * hex_digit_value (char_at longHexString (2 * 0)) +
      hex_digit_value (char_at longHexString (2 * 0 + 1)) = 0 := by
  refine ⟨?_, ?_, ?_, ?_⟩
  · rw [longHexString_length]
    norm_num
  · intro c hc
    have hc' : c ∈ List.replicate (2 ^ 32) '0' := hc
    rw [List.eq_of_mem_replicate hc']
    decide
  · rw [str_to_hex_eq, longHexString_length, Nat.mod_self, Nat.zero_div]
    show rd (List.replicate (2 ^ 31) 1) 0 = 1
    have h : 0 < (List.replicate (2 ^ 31) 1).length := by
      rw [List.length_replicate]; exact Nat.pow_pos (by decide)
    rw [rd_eq_getElem _ _ h]
    exact List.getElem_replicate _ _
  · rw [longHexString_char _ (by norm_num), longHexString_char _ (by norm_num)]
    rfl

theorem store_len_congr (d1 d2 out : Bytes) (n : Nat) (h1 : d1.length = n) (h2 : d2.length = n) :
    store d1 out n = store d2 out n := by
  apply ext_rd
  · rw [length_store, length_store, h1, h2]
  · intro i hi
    rw [length_store, h1] at hi
    rw [rd_store, rd_store, if_pos ⟨hi, by omega⟩, if_pos ⟨hi, by omega⟩]

theorem forLoop_wr0_len_congr (n : Nat) (f : Nat → Nat) (b1 b2 : Bytes)
    (h1 : b1.length = n) (h2 : b2.length = n) :
    forLoop n (fun i d => wr d i (f i)) b1 = forLoop n (fun i d => wr d i (f i)) b2 := by
  rw [forLoop_wr0_eq_map n f b1 h1, forLoop_wr0_eq_map n f b2 h2]

theorem rd_autn_build (sqn ak amf mac autn : Bytes) (hautn : autn.length = 16) (i : Nat)
    (hi : i < 16) :
    rd (forLoop 8 (fun i autn => wr autn (8 + i) (rd mac i))
          (forLoop 2 (fun i autn => wr autn (6 + i) (rd amf i))
            (forLoop 6 (fun i autn => wr autn i (rd sqn i ^^^ rd ak i)) autn))) i =
      if 8 ≤ i then rd mac (i - 8)
      else if 6 ≤ i then rd amf (i - 6) else rd sqn i ^^^ rd ak i := by
  rw [rd_forLoop_wr 8 8 (fun i => rd mac i), length_forLoop_wr, length_forLoop_wr0, hautn]
  by_cases h8 : 8 ≤ i
  · rw [if_pos ⟨h8, by omega, hi⟩, if_pos h8]
  · rw [if_neg (fun h => h8 h.1), if_neg h8,
      rd_forLoop_wr 2 6 (fun i => rd amf i), length_forLoop_wr0, hautn]
    by_cases h6 : 6 ≤ i
    · rw [if_pos ⟨h6, by omega, hi⟩, if_pos h6]
    · rw [if_neg (fun h => h6 h.1), if_neg h6, rd_forLoop_wr0, if_pos ⟨by omega, by omega⟩]

theorem autn_build_len_congr (sqn ak amf mac a1 a2 : Bytes)
    (h1 : a1.length = 16) (h2 : a2.length = 16) :
    forLoop 8 (fun i autn => wr autn (8 + i) (rd mac i))
        (forLoop 2 (fun i autn => wr autn (6 + i) (rd amf i))
          (forLoop 6 (fun i autn => wr autn i (rd sqn i ^^^ rd ak i)) a1)) =
      forLoop 8 (fun i autn => wr autn (8 + i) (rd mac i))
        (forLoop 2 (fun i autn => wr autn (6 + i) (rd amf i))
          (forLoop 6 (fun i autn => wr autn i (rd sqn i ^^^ rd ak i)) a2)) := by
  apply ext_rd
  · rw [length_forLoop_wr, length_forLoop_wr, length_forLoop_wr0, length_forLoop_wr,
      length_forLoop_wr, length_forLoop_wr0, h1, h2]
  · intro i hi
    rw [length_forLoop_wr, length_forLoop_wr, length_forLoop_wr0, h1] at hi
    rw [rd_autn_build _ _ _ _ _ h1 i hi, rd_autn_build _ _ _ _ _ h2 i hi]

/-- The legacy verifiers do not depend on what the scratch members held. -/
theorem legacy_verifier_scratch_independent (P : Primitives) (s1 s2 : usim)
    (rand autn_enb res akx : Bytes) (h1 : s1.WF) (h2 : s2.WF)
    (hk : s1.k = s2.k) (hopc : s1.opc = s2.opc) (halgo : s1.auth_algo = s2.auth_algo) :
    (legacy_verifier P s1 rand autn_enb res akx).2 =
      (legacy_verifier P s2 rand autn_enb res akx).2 ∧
    (legacy_verifier P s1 rand autn_enb res akx).1.ck =
      (legacy_verifier P s2 rand autn_enb res akx).1.ck ∧
    (legacy_verifier P s1 rand autn_enb res akx).1.ik =
      (legacy_verifier P s2 rand autn_enb res akx).1.ik := by
  obtain ⟨-, -, -, hck1, hik1, hak1, -, hamf1, hmac1, hautn1, -⟩ := h1
  obtain ⟨-, -, -, hck2, hik2, hak2, -, hamf2, hmac2, hautn2, -⟩ := h2
  have eck : ∀ out, store s1.ck out CK_LEN = store s2.ck out CK_LEN :=
    fun out => store_len_congr _ _ out _ hck1 hck2
  have eik : ∀ out, store s1.ik out IK_LEN = store s2.ik out IK_LEN :=
    fun out => store_len_congr _ _ out _ hik1 hik2
  have eak : ∀ out, store s1.ak out AK_LEN = store s2.ak out AK_LEN :=
    fun out => store_len_congr _ _ out _ hak1 hak2
  have emac : ∀ out, store s1.mac out 8 = store s2.mac out 8 :=
    fun out => store_len_congr _ _ out _ hmac1 hmac2
  have eamf : forLoop 2 (fun i amf => wr amf i (rd autn_enb (6 + i))) s1.amf =
      forLoop 2 (fun i amf => wr amf i (rd autn_enb (6 + i))) s2.amf :=
    forLoop_wr0_len_congr 2 _ _ _ hamf1 hamf2
  have eautn : ∀ sqn ak amf mac,
      forLoop 8 (fun i autn => wr autn (8 + i) (rd mac i))
        (forLoop 2 (fun i autn => wr autn (6 + i) (rd amf i))
          (forLoop 6 (fun i autn => wr autn i (rd sqn i ^^^ rd ak i)) s1.autn)) =
      forLoop 8 (fun i autn => wr autn (8 + i) (rd mac i))
        (forLoop 2 (fun i autn => wr autn (6 + i) (rd amf i))
          (forLoop 6 (fun i autn => wr autn i (rd sqn i ^^^ rd ak i)) s2.autn)) :=
    fun sqn ak amf mac => autn_build_len_congr sqn ak amf mac _ _ hautn1 hautn2
  unfold legacy_verifier
  rw [halgo]
  split_ifs
  · simp only [gen_auth_res_xor, hk, eck, eik, eak, emac, eamf, eautn, and_self]
  · simp only [gen_auth_res_milenage, hk, hopc, eck, eik, eak, emac, eamf, eautn, and_self]

/-- `gen_auth_res_milenage_new` does not depend on what the scratch members
held; it does depend on the contents `output` of its unwritten local array. -/
theorem gen_auth_res_milenage_new_scratch_independent (P : Primitives) (s1 s2 : usim)
    (rand autn_enb snmac res : Bytes) (snn : String) (output : Bytes)
    (h1 : s1.WF) (h2 : s2.WF)
    (hk : s1.k = s2.k) (hopc : s1.opc = s2.opc) (hn : s1.n = s2.n) :
    (gen_auth_res_milenage_new P s1 rand autn_enb snmac res snn output).2 =
      (gen_auth_res_milenage_new P s2 rand autn_enb snmac res snn output).2 ∧
    (gen_auth_res_milenage_new P s1 rand autn_enb snmac res snn output).1.ck =
      (gen_auth_res_milenage_new P s2 rand autn_enb snmac res snn output).1.ck ∧
    (gen_auth_res_milenage_new P s1 rand autn_enb snmac res snn output).1.ik =
      (gen_auth_res_milenage_new P s2 rand autn_enb snmac res snn output).1.ik := by
  obtain ⟨-, -, -, hck1, hik1, -, hakn1, -, hmac1, -, hautn1, hx1, -⟩ := h1
  obtain ⟨-, -, -, hck2, hik2, -, hakn2, -, hmac2, -, hautn2, hx2, -⟩ := h2
  have eck : ∀ out, store s1.ck out CK_LEN = store s2.ck out CK_LEN :=
    fun out => store_len_congr _ _ out _ hck1 hck2
  have eik : ∀ out, store s1.ik out IK_LEN = store s2.ik out IK_LEN :=
    fun out => store_len_congr _ _ out _ hik1 hik2
  have eakn : ∀ out, store s1.ak_new out AK_LEN_NEW = store s2.ak_new out AK_LEN_NEW :=
    fun out => store_len_congr _ _ out _ hakn1 hakn2
  have emac : ∀ out, store s1.mac out 8 = store s2.mac out 8 :=
    fun out => store_len_congr _ _ out _ hmac1 hmac2
  have eautn : ∀ f : Nat → Nat, forLoop 8 (fun i a => wr a i (f i)) s1.autn_new =
      forLoop 8 (fun i a => wr a i (f i)) s2.autn_new :=
    fun f => forLoop_wr0_len_congr 8 f _ _ hautn1 hautn2
  have ex : forLoop 8 (fun i xsnmac => wr xsnmac i (rd output (i + 24))) s1.xsnmac =
      forLoop 8 (fun i xsnmac => wr xsnmac i (rd output (i + 24))) s2.xsnmac :=
    forLoop_wr0_len_congr 8 _ _ _ hx1 hx2
  simp only [gen_auth_res_milenage_new, hk, hopc, hn, eck, eik, eakn, emac, eautn, ex,
    and_self]

theorem generate_authentication_response_5g_new_unfold (P : Primitives) (s : usim)
    (rand autn_enb snmac : Bytes) (snn : String) (abba : Bytes) (abba_len : Nat)
    (res_star k_amf output : Bytes) :
    (generate_authentication_response_5g_new P s rand autn_enb snmac snn abba abba_len
        res_star k_amf output).2 =
      if auth_algo_xor = s.auth_algo then
        { result := AUTH_FAILED, res_star := res_star, k_amf := k_amf,
          k_ausf := zeros 32, k_seaf := zeros 32, calls := [] }
      else if (gen_auth_res_milenage_new P s rand autn_enb snmac (zeros 16) snn output).2.result
          = AUTH_OK then
        { result := AUTH_OK,
          res_star := store res_star (P.security_generate_res_star
            (gen_auth_res_milenage_new P s rand autn_enb snmac (zeros 16) snn output).1.ck
            (gen_auth_res_milenage_new P s rand autn_enb snmac (zeros 16) snn output).1.ik
            snn rand
            (view (gen_auth_res_milenage_new P s rand autn_enb snmac (zeros 16) snn output).2.res
              (gen_auth_res_milenage_new P s rand autn_enb snmac (zeros 16) snn
                output).2.res_len)
            (gen_auth_res_milenage_new P s rand autn_enb snmac (zeros 16) snn
              output).2.res_len) 16,
          k_amf := store k_amf (P.security_generate_k_amf
            (store (zeros 32) (P.security_generate_k_seaf
              (store (zeros 32) (P.security_generate_k_ausf
                (gen_auth_res_milenage_new P s rand autn_enb snmac (zeros 16) snn output).1.ck
                (gen_auth_res_milenage_new P s rand autn_enb snmac (zeros 16) snn output).1.ik
                (memcpy (zeros 6) 0 autn_enb 6) snn) 32)
              snn) 32)
            (gen_auth_res_milenage_new P s rand autn_enb snmac (zeros 16) snn
              output).1.imsi_str
            (view abba abba_len) abba_len) 32,
          k_ausf := store (zeros 32) (P.security_generate_k_ausf
            (gen_auth_res_milenage_new P s rand autn_enb snmac (zeros 16) snn output).1.ck
            (gen_auth_res_milenage_new P s rand autn_enb snmac (zeros 16) snn output).1.ik
            (memcpy (zeros 6) 0 autn_enb 6) snn) 32,
          k_seaf := store (zeros 32) (P.security_generate_k_seaf
            (store (zeros 32) (P.security_generate_k_ausf
              (gen_auth_res_milenage_new P s rand autn_enb snmac (zeros 16) snn output).1.ck
              (gen_auth_res_milenage_new P s rand autn_enb snmac (zeros 16) snn output).1.ik
              (memcpy (zeros 6) 0 autn_enb 6) snn) 32)
            snn) 32,
          calls :=
            (gen_auth_res_milenage_new P s rand autn_enb snmac (zeros 16) snn output).2.calls
            ++ [Call.security_generate_res_star, Call.security_generate_k_ausf,
                Call.security_generate_k_seaf, Call.security_generate_k_amf] }
      else
        { result :=
            (gen_auth_res_milenage_new P s rand autn_enb snmac (zeros 16) snn output).2.result,
          res_star := res_star, k_amf := k_amf, k_ausf := zeros 32, k_seaf := zeros 32,
          calls :=
            (gen_auth_res_milenage_new P s rand autn_enb snmac (zeros 16) snn
              output).2.calls } := by
  by_cases hx : auth_algo_xor = s.auth_algo
  · rw [if_pos hx]
    unfold generate_authentication_response_5g_new
    simp only [if_pos hx, if_neg failed_ne_ok]
  · rw [if_neg hx]
    by_cases hv : (gen_auth_res_milenage_new P s rand autn_enb snmac (zeros 16) snn
        output).2.result = AUTH_OK
    · rw [if_pos hv]
      exact generate_authentication_response_5g_new_ok P s rand autn_enb snmac snn abba
        abba_len res_star k_amf output hx hv
    · rw [if_neg hv]
      unfold generate_authentication_response_5g_new
      simp only []
      simp only [if_neg hx]
      rw [if_neg hv]

/-- Apart from the unwritten local array of the re-authentication variant, the
three entry points are functions of their arguments and of the provisioned
credential: two modules with the declared array sizes that agree on k, opc,
the algorithm family, the IMSI string and `n` give the same results and
outputs, whatever their scratch members hold, provided the two runs of
`generate_authentication_response_5g_new` find the same bytes in `output`. -/
theorem entry_points_scratch_independent (P : Primitives) (s1 s2 : usim)
    (rand autn_enb snmac : Bytes) (mcc mnc : Nat) (serving_network_name : String)
    (abba : Bytes) (abba_len : Nat) (res k_asme_ res_star k_amf output : Bytes)
    (h1 : s1.WF) (h2 : s2.WF)
    (hk : s1.k = s2.k) (hopc : s1.opc = s2.opc) (halgo : s1.auth_algo = s2.auth_algo)
    (himsi : s1.imsi_str = s2.imsi_str) (hn : s1.n = s2.n) :
    (generate_authentication_response P s1 rand autn_enb mcc mnc res k_asme_).2 =
      (generate_authentication_response P s2 rand autn_enb mcc mnc res k_asme_).2 ∧
    (generate_authentication_response_5g P s1 rand autn_enb serving_network_name abba abba_len
        res_star k_amf).2 =
      (generate_authentication_response_5g P s2 rand autn_enb serving_network_name abba
        abba_len res_star k_amf).2 ∧
    (generate_authentication_response_5g_new P s1 rand autn_enb snmac serving_network_name
        abba abba_len res_star k_amf output).2 =
      (generate_authentication_response_5g_new P s2 rand autn_enb snmac serving_network_name
        abba abba_len res_star k_amf output).2 := by
  refine ⟨?_, ?_, ?_⟩
  · obtain ⟨e2, eck, eik⟩ := legacy_verifier_scratch_independent P s1 s2 rand autn_enb res
      (zeros 6) h1 h2 hk hopc halgo
    rw [generate_authentication_response_unfold, generate_authentication_response_unfold]
    simp only [e2, eck, eik]
    split_ifs <;> simp only []
  · obtain ⟨e2, eck, eik⟩ := legacy_verifier_scratch_independent P s1 s2 rand autn_enb
      (zeros 16) (zeros 6) h1 h2 hk hopc halgo
    have ei : (legacy_verifier P s1 rand autn_enb (zeros 16) (zeros 6)).1.imsi_str =
        (legacy_verifier P s2 rand autn_enb (zeros 16) (zeros 6)).1.imsi_str := by
      rw [legacy_verifier_imsi_str, legacy_verifier_imsi_str, himsi]
    unfold legacy_verifier at e2 eck eik ei
    unfold generate_authentication_response_5g
    simp only [e2, eck, eik, ei]
    split_ifs <;> simp only []
  · obtain ⟨e2, eck, eik⟩ := gen_auth_res_milenage_new_scratch_independent P s1 s2 rand
      autn_enb snmac (zeros 16) serving_network_name output h1 h2 hk hopc hn
    have ei : (gen_auth_res_milenage_new P s1 rand autn_enb snmac (zeros 16)
          serving_network_name output).1.imsi_str =
        (gen_auth_res_milenage_new P s2 rand autn_enb snmac (zeros 16)
          serving_network_name output).1.imsi_str := by
      simp only [gen_auth_res_milenage_new, himsi]
    rw [generate_authentication_response_5g_new_unfold,
      generate_authentication_response_5g_new_unfold, halgo]
    simp only [e2, eck, eik, ei]

/-- C14 (the code at a failing input): two runs of
`generate_authentication_response_5g_new` on the same module, with the same
credential and the same arguments, that find different bytes in the unwritten
local array `output` of `gen_auth_res_milenage_new`: one returns AUTH_OK and
writes res_star and k_amf, the other returns AUTH_FAILED and writes nothing. -/
theorem reauth_result_depends_on_unwritten_array :
    (generate_authentication_response_5g_new samplePrimitives sampleUsim sampleRand
        sampleAutnNew [25, 26, 27, 28, 29, 30, 31, 32] sampleSnn [0, 0] 2 (zeros 16) (zeros 32)
        sampleOutput).2.result = AUTH_OK ∧
    (generate_authentication_response_5g_new samplePrimitives sampleUsim sampleRand
        sampleAutnNew [25, 26, 27, 28, 29, 30, 31, 32] sampleSnn [0, 0] 2 (zeros 16) (zeros 32)
        (zeros 32)).2.result = AUTH_FAILED ∧
    (generate_authentication_response_5g_new samplePrimitives sampleUsim sampleRand
        sampleAutnNew [25, 26, 27, 28, 29, 30, 31, 32] sampleSnn [0, 0] 2 (zeros 16) (zeros 32)
        sampleOutput).2.k_amf ≠
      (generate_authentication_response_5g_new samplePrimitives sampleUsim sampleRand
        sampleAutnNew [25, 26, 27, 28, 29, 30, 31, 32] sampleSnn [0, 0] 2 (zeros 16) (zeros 32)
        (zeros 32)).2.k_amf := by
  decide

end srsue
